import Mathlib

/-!
# Metered content generation (ai-content-saas backend)

A shallow embedding of `backend/services/openaiService.js`,
`backend/models/Generation.js` and `backend/controllers/generationController.js`,
followed by theorems about the metered-generation pipeline.

Conventions of the embedding:

* JavaScript strings are Lean strings; `.length` is `jsLength` (UTF-16 code units).
* JavaScript numbers that hold counts and balances are integers (`Nat`, `Int`); the
  numbers parsed from the history query are `JsNumber`s, with the rounding of doubles.
* An `await`ed call to an external collaborator (the Gemini backend, the document
  store) either resolves or rejects; its outcome is an explicit argument of the
  handler, and a rejection carries the message of the thrown error.
* A handler is a function from the stored state and the request to the response it
  sends and the stored state it leaves behind.
-/

namespace AiContentSaas

/-! ## Strings -/

/-- Number of UTF-16 code units of one character. -/
def utf16Units (c : Char) : Nat :=
  if c.toNat < 65536 then 1 else 2

/-- The `length` property of a JavaScript string: its number of UTF-16 code units. -/
def jsLength (s : String) : Nat :=
  (s.toList.map utf16Units).sum

/-- Whether `pat` is a prefix of `l`. -/
def startsWith : List Char → List Char → Bool
  | _, [] => true
  | [], _ :: _ => false
  | c :: l, p :: pat => c == p && startsWith l pat

/-- Whether `pat` occurs in `l` (`String.prototype.includes` on character lists). -/
def includesChars : List Char → List Char → Bool
  | [], pat => pat.isEmpty
  | c :: l, pat => startsWith (c :: l) pat || includesChars l pat

/-- The call `s.includes(pat)`. -/
def jsIncludes (s pat : String) : Bool :=
  includesChars s.toList pat.toList

/-- The value of `Math.ceil(n / 4)` for a non-negative integer `n`. -/
def ceilDiv4 (n : Nat) : Nat :=
  (n + 3) / 4

/-! ## services/openaiService.js -/

/-- Own properties of the object literal `SYSTEM_PROMPTS`. -/
def SYSTEM_PROMPTS : List (String × String) :=
  [("blog-post", "You are an expert blog writer. Create engaging, SEO-optimized blog content that is informative and well-structured."),
   ("product-description", "You are an expert e-commerce copywriter. Create compelling product descriptions that highlight benefits and drive conversions."),
   ("ad-copy", "You are an expert advertising copywriter. Create persuasive, attention-grabbing ad copy that drives action."),
   ("social-media", "You are a social media expert. Create engaging, viral-worthy social media posts that encourage interaction.")]

/-- Properties that every object literal inherits from `Object.prototype`, each with
the text that a template literal renders for its value. `__proto__` yields
`Object.prototype` itself, the other names yield built-in functions. All of these
values are truthy. -/
def objectPrototype : List (String × String) :=
  [("__proto__", "[object Object]"),
   ("constructor", "function Object() \x7b [native code] \x7d"),
   ("hasOwnProperty", "function hasOwnProperty() \x7b [native code] \x7d"),
   ("isPrototypeOf", "function isPrototypeOf() \x7b [native code] \x7d"),
   ("propertyIsEnumerable", "function propertyIsEnumerable() \x7b [native code] \x7d"),
   ("toLocaleString", "function toLocaleString() \x7b [native code] \x7d"),
   ("toString", "function toString() \x7b [native code] \x7d"),
   ("valueOf", "function valueOf() \x7b [native code] \x7d"),
   ("__defineGetter__", "function __defineGetter__() \x7b [native code] \x7d"),
   ("__defineSetter__", "function __defineSetter__() \x7b [native code] \x7d"),
   ("__lookupGetter__", "function __lookupGetter__() \x7b [native code] \x7d"),
   ("__lookupSetter__", "function __lookupSetter__() \x7b [native code] \x7d")]

/-- The instruction used when the lookup in `SYSTEM_PROMPTS` is falsy. -/
def fallbackPrompt : String :=
  "You are a helpful AI assistant."

/-- The text that `systemPrompt` contributes to the template literal, where
`systemPrompt = SYSTEM_PROMPTS[contentType] || fallback`: an own property of the
table wins, then a property inherited from `Object.prototype` (truthy, so `||` keeps
it), and only an absent property gives the fallback. -/
def systemPrompt (contentType : String) : String :=
  match SYSTEM_PROMPTS.lookup contentType with
  | some instruction => instruction
  | none =>
    match objectPrototype.lookup contentType with
    | some rendered => rendered
    | none => fallbackPrompt

/-- The template literal that joins the system prompt and the user prompt. -/
def fullPrompt (contentType prompt : String) : String :=
  systemPrompt contentType ++ "\n\nUser Request: " ++ prompt

/-- Result object of `generateContent`. -/
structure Generated where
  content : String
  tokensUsed : Nat
  deriving DecidableEq, Repr

/-- The function `generateContent(contentType, prompt, model)`. The argument `backend`
is the outcome of the Gemini call on the full prompt with the given model: the text of
the response, or the message of the error it threw. -/
def generateContent (contentType prompt : String) (_model : String)
    (backend : Except String String) : Except String Generated :=
  match backend with
  | .ok content =>
    .ok { content := content
          tokensUsed := ceilDiv4 (jsLength (fullPrompt contentType prompt) + jsLength content) }
  | .error message =>
    if jsIncludes message "RATE_LIMIT" then
      .error "Rate limit exceeded. Please try again in a moment."
    else
      .error ("AI generation failed: " ++ message)

/-- The function `estimateTokens(text)`. -/
def estimateTokens (text : String) : Nat :=
  ceilDiv4 (jsLength text)

/-! ## Number parsing used by the history query -/

/-- White space and line terminators that `parseInt` skips at the start of its input. -/
def isStrWhiteSpaceChar (c : Char) : Bool :=
  let n := c.toNat
  n == 9 || n == 10 || n == 11 || n == 12 || n == 13 || n == 32 || n == 160 || n == 5760 ||
    (8192 ≤ n && n ≤ 8202) || n == 8232 || n == 8233 || n == 8239 || n == 8287 ||
    n == 12288 || n == 65279

/-- Value of a character read as a digit (`0`-`9`, then letters from ten upwards). -/
def digitValue (c : Char) : Option Nat :=
  let n := c.toNat
  if 48 ≤ n ∧ n ≤ 57 then some (n - 48)
  else if 97 ≤ n ∧ n ≤ 122 then some (n - 87)
  else if 65 ≤ n ∧ n ≤ 90 then some (n - 55)
  else none

/-- The longest prefix of the input made of digits of the radix, as digit values. -/
def takeDigits (radix : Nat) : List Char → List Nat
  | [] => []
  | c :: cs =>
    match digitValue c with
    | some d => if d < radix then d :: takeDigits radix cs else []
    | none => []

/-- The mathematical integer denoted by a digit sequence in the radix. -/
def digitsValue (radix : Nat) (ds : List Nat) : Nat :=
  ds.foldl (fun acc d => acc * radix + d) 0

/-- A JavaScript number as it arises from `parseInt` and integer arithmetic: `NaN`, a
double with an integer value, or an infinity. Minus zero is `finite 0`. -/
inductive JsNumber where
  | nan
  | finite (value : Int)
  | infinite (negative : Bool)
  deriving DecidableEq, Repr

/-- The double nearest to a natural number (ties to even), `none` when it overflows:
numbers below `2 ^ 53` are exact, larger ones keep their 53 leading bits. -/
def roundMagnitude (n : Nat) : Option Nat :=
  if n < 2 ^ 53 then some n
  else
    let shift := Nat.log2 n - 52
    let kept := n / 2 ^ shift
    let rest := n % 2 ^ shift
    let half := 2 ^ (shift - 1)
    let rounded := if half < rest ∨ (rest = half ∧ kept % 2 = 1) then kept + 1 else kept
    if rounded * 2 ^ shift < 2 ^ 1024 then some (rounded * 2 ^ shift) else none

/-- The JavaScript number that an exact integer result is rounded to. -/
def toDouble (n : Int) : JsNumber :=
  match roundMagnitude n.natAbs with
  | some m => .finite (if n < 0 then -(m : Int) else (m : Int))
  | none => .infinite (decide (n < 0))

/-- The call `parseInt(string)` with no radix argument. Leading white space is skipped,
one sign is read, a `0x`/`0X` prefix selects radix 16 (radix 10 otherwise), and the
longest digit prefix is the value, rounded to the nearest double (which is what V8
computes, also beyond 20 significant digits); without a digit the result is `NaN`. -/
def parseInt (input : String) : JsNumber :=
  let s := input.toList.dropWhile isStrWhiteSpaceChar
  let signed : Bool × List Char :=
    match s with
    | '-' :: rest => (true, rest)
    | '+' :: rest => (false, rest)
    | _ => (false, s)
  let based : Nat × List Char :=
    match signed.2 with
    | '0' :: 'x' :: rest => (16, rest)
    | '0' :: 'X' :: rest => (16, rest)
    | _ => (10, signed.2)
  let digits := takeDigits based.1 based.2
  if digits.isEmpty then .nan
  else
    let value : Int := digitsValue based.1 digits
    toDouble (if signed.1 then -value else value)

/-- The expression `n || fallback` for a number `n`: `NaN` and zero are falsy. -/
def orDefault (n : JsNumber) (fallback : Int) : JsNumber :=
  match n with
  | .nan => .finite fallback
  | .finite v => if v = 0 then .finite fallback else .finite v
  | .infinite negative => .infinite negative

/-- The difference `a - b` of JavaScript numbers. -/
def JsNumber.sub : JsNumber → JsNumber → JsNumber
  | .finite x, .finite y => toDouble (x - y)
  | .infinite negative, .finite _ => .infinite negative
  | .finite _, .infinite negative => .infinite (!negative)
  | .infinite a, .infinite b => if a = b then .nan else .infinite a
  | _, _ => .nan

/-- The product `a * b` of JavaScript numbers. -/
def JsNumber.mul : JsNumber → JsNumber → JsNumber
  | .finite x, .finite y => toDouble (x * y)
  | .infinite negative, .finite y =>
    if y = 0 then .nan else .infinite (negative != decide (y < 0))
  | .finite x, .infinite negative =>
    if x = 0 then .nan else .infinite (negative != decide (x < 0))
  | .infinite a, .infinite b => .infinite (a != b)
  | _, _ => .nan

/-- The text `parseInt` receives for a query parameter: an absent parameter is
`undefined`, which converts to the string "undefined". -/
def queryText (raw : Option String) : String :=
  raw.getD "undefined"

/-! ## Data model -/

/-- Identifier of a stored document, identified with the text `toString()` gives. -/
abbrev ObjectId := String

/-- The in-memory user document `req.user`. -/
structure User where
  _id : ObjectId
  tokensRemaining : Int
  subscriptionTier : String
  deriving DecidableEq, Repr

/-- A stored document of the `Generation` model (`models/Generation.js`), with the
identifier and the `createdAt` timestamp the store assigns. -/
structure Generation where
  _id : ObjectId
  user : ObjectId
  contentType : String
  prompt : String
  output : String
  tokensUsed : Nat
  model : String
  createdAt : Nat
  deriving DecidableEq, Repr

/-- The object handed to `Generation.create`. -/
structure GenerationInput where
  user : ObjectId
  contentType : String
  prompt : String
  output : String
  tokensUsed : Nat
  model : Option String
  deriving DecidableEq, Repr

/-- The stored state: the balance and tier of every user document, and the
`Generation` collection in insertion order. -/
structure Db where
  tokensRemaining : ObjectId → Int
  subscriptionTier : ObjectId → String
  generations : List Generation

/-- The `enum` of the `contentType` path. -/
def contentTypeEnum : List String :=
  ["blog-post", "product-description", "ad-copy", "social-media"]

/-- Schema validation of a new `Generation` document: the messages of the failing
paths. A `required` string path rejects the empty string, `contentType` must also be
in the enum; `user` and `tokensUsed` are always present here. -/
def validationErrors (doc : GenerationInput) : List String :=
  (if doc.contentType = "" then ["contentType: Path `contentType` is required."]
   else if doc.contentType ∈ contentTypeEnum then []
   else ["contentType: `" ++ doc.contentType ++
     "` is not a valid enum value for path `contentType`."]) ++
  (if doc.prompt = "" then ["prompt: Path `prompt` is required."] else []) ++
  (if doc.output = "" then ["output: Path `output` is required."] else [])

/-- The call `Generation.create(doc)`: the document is validated against the schema,
then inserted with the identifier `newId` and the timestamp `now` unless the store
rejects the insertion (`storeError`). A missing `model` takes the schema default. -/
def Generation.create (db : Db) (storeError : Option String) (newId : ObjectId) (now : Nat)
    (doc : GenerationInput) : Except String (Generation × Db) :=
  match validationErrors doc with
  | _ :: _ => .error ("Generation validation failed: " ++ ", ".intercalate (validationErrors doc))
  | [] =>
    match storeError with
    | some message => .error message
    | none =>
      let generation : Generation :=
        { _id := newId
          user := doc.user
          contentType := doc.contentType
          prompt := doc.prompt
          output := doc.output
          tokensUsed := doc.tokensUsed
          model := doc.model.getD "gpt-3.5-turbo"
          createdAt := now }
      .ok (generation, { db with generations := db.generations ++ [generation] })

/-- The call `user.save()` after `tokensRemaining` was changed in memory: the stored
balance of that user becomes the in-memory one, unless the store rejects the write. -/
def User.save (db : Db) (storeError : Option String) (user : User) : Except String Db :=
  match storeError with
  | some message => .error message
  | none =>
    .ok { db with tokensRemaining := Function.update db.tokensRemaining user._id user.tokensRemaining }

/-- Whether a character is a hexadecimal digit. -/
def isHexDigit (c : Char) : Bool :=
  (48 ≤ c.toNat && c.toNat ≤ 57) || (97 ≤ c.toNat && c.toNat ≤ 102) ||
    (65 ≤ c.toNat && c.toNat ≤ 70)

/-- The cast of a request string to an identifier: only a string of 24 hexadecimal
digits denotes an `ObjectId`, whose text is in lower case. -/
def castObjectId (id : String) : Option ObjectId :=
  if id.toList.length = 24 ∧ id.toList.all isHexDigit then
    some (String.mk (id.toList.map Char.toLower))
  else none

/-- The call `Generation.findById(id)` on a request string: a string that is not an
`ObjectId` is rejected with a cast error before the store is asked. -/
def Generation.findById (db : Db) (storeError : Option String) (id : String) :
    Except String (Option Generation) :=
  match castObjectId id with
  | none =>
    .error ("Cast to ObjectId failed for value \"" ++ id ++
      "\" (type string) at path \"_id\" for model \"Generation\"")
  | some oid =>
    match storeError with
    | some message => .error message
    | none => .ok (db.generations.find? (fun g => g._id = oid))

/-- The call `generation.deleteOne()`: the found document leaves the collection. -/
def Generation.deleteOne (db : Db) (storeError : Option String) (generation : Generation) :
    Except String Db :=
  match storeError with
  | some message => .error message
  | none => .ok { db with generations := db.generations.erase generation }

/-- Documents matching the filter `{ user: owner }`. -/
def Generation.ownedBy (db : Db) (owner : ObjectId) : List Generation :=
  db.generations.filter (fun g => g.user = owner)

/-- The order of `sort({ createdAt: -1 })`: newest first. -/
def newestFirst (a b : Generation) : Prop :=
  b.createdAt ≤ a.createdAt

instance : DecidableRel newestFirst :=
  fun a b => inferInstanceAs (Decidable (b.createdAt ≤ a.createdAt))

/-- The query `Generation.find({ user }).sort({ createdAt: -1 }).limit(limit).skip(skip)`:
the owner's documents newest first, `skip` of them dropped, then at most `limit` kept.
The store rejects a negative `skip`; it serves a negative `limit` as its absolute
value. How the store treats a `limit` or `skip` that is not a safe integer is not
determined by the sources; its answer in that case is the argument `beyondSafe`. -/
def Generation.findPage (db : Db) (storeError : Option String)
    (beyondSafe : Except String (List Generation)) (owner : ObjectId)
    (limit skip : JsNumber) : Except String (List Generation) :=
  match storeError with
  | some message => .error message
  | none =>
    match limit, skip with
    | .finite l, .finite k =>
      if l.natAbs < 2 ^ 53 ∧ k.natAbs < 2 ^ 53 then
        if k < 0 then .error "skip value must be non-negative"
        else
          .ok ((((Generation.ownedBy db owner).insertionSort newestFirst).drop k.toNat).take
            l.natAbs)
      else beyondSafe
    | _, _ => beyondSafe

/-- The call `Generation.countDocuments({ user: owner })`. -/
def Generation.countDocuments (db : Db) (storeError : Option String) (owner : ObjectId) :
    Except String Nat :=
  match storeError with
  | some message => .error message
  | none => .ok (Generation.ownedBy db owner).length

/-- The ceiling of the quotient of a count by a non-zero integer. -/
def ceilDiv (total : Nat) (limit : Int) : Int :=
  -((-(total : Int)).fdiv limit)

/-- The value of `Math.ceil(total / limit)` for a count (below `2 ^ 53`) and a
JavaScript number. -/
def mathCeilDiv (total : Nat) : JsNumber → JsNumber
  | .nan => .nan
  | .infinite _ => .finite 0
  | .finite limit =>
    if limit = 0 then (if total = 0 then .nan else .infinite false)
    else .finite (ceilDiv total limit)

/-! ## controllers/generationController.js -/

/-- The data a JSON response carries besides `success` and `message`. -/
inductive Payload where
  | empty
  | insufficient (tokensRemaining : Int) (tokensRequired : Nat)
  | failure (error : String)
  | generated (generation : Generation) (tokensRemaining : Int)
  | history (generations : List Generation) (page limit : JsNumber) (total : Nat)
      (pages : JsNumber)
  | record (generation : Generation)
  | stats (totalGenerations totalTokensUsed : Nat) (tokensRemaining : Int)
      (subscriptionTier : String) (generationsByType : List (String × Nat))
  deriving DecidableEq, Repr

/-- What `res.status(code).json(body)` sends. -/
structure Response where
  status : Nat
  success : Bool
  message : Option String
  payload : Payload
  deriving DecidableEq, Repr

/-- The generation records a response discloses. -/
def Response.records (r : Response) : List Generation :=
  match r.payload with
  | .generated generation _ => [generation]
  | .history generations _ _ _ _ => generations
  | .record generation => [generation]
  | _ => []

/-- The body `{ prompt, model }` of a generation request; `none` is an absent field. -/
structure GenerateBody where
  prompt : Option String
  model : Option String
  deriving DecidableEq, Repr

/-- Outcomes of the external calls one run of `handleGeneration` awaits, with the
identifier and timestamp the store would give a new record. -/
structure GenerationEnv where
  backend : Except String String
  saveError : Option String
  createError : Option String
  newId : ObjectId
  now : Nat

/-- The response of a `catch` block. -/
def failed (message error : String) : Response :=
  { status := 500, success := false, message := some message, payload := .failure error }

/-- The handler `handleGeneration(req, res, contentType)`, where `user` is `req.user`
and `body` is `req.body`. -/
def handleGeneration (db : Db) (env : GenerationEnv) (user : User) (body : GenerateBody)
    (contentType : String) : Response × Db :=
  let model := body.model.getD "gemini-2.5-flash"
  match body.prompt with
  | none =>
    ({ status := 400, success := false, message := some "Please provide a prompt",
       payload := .empty }, db)
  | some prompt =>
    if prompt = "" then
      ({ status := 400, success := false, message := some "Please provide a prompt",
         payload := .empty }, db)
    else
      match generateContent contentType prompt model env.backend with
      | .error error => (failed "Content generation failed" error, db)
      | .ok generated =>
        if user.tokensRemaining < generated.tokensUsed then
          ({ status := 403, success := false,
             message := some "Insufficient tokens. Please upgrade your plan.",
             payload := .insufficient user.tokensRemaining generated.tokensUsed }, db)
        else
          let debited : User :=
            { user with tokensRemaining := user.tokensRemaining - generated.tokensUsed }
          match User.save db env.saveError debited with
          | .error error => (failed "Content generation failed" error, db)
          | .ok saved =>
            match Generation.create saved env.createError env.newId env.now
                { user := debited._id
                  contentType := contentType
                  prompt := prompt
                  output := generated.content
                  tokensUsed := generated.tokensUsed
                  model := some model } with
            | .error error => (failed "Content generation failed" error, saved)
            | .ok (generation, stored) =>
              ({ status := 201, success := true, message := none,
                 payload := .generated generation debited.tokensRemaining }, stored)

/-- The four generation endpoints of `routes/generationRoutes.js`. -/
inductive Route where
  | blogPost
  | productDescription
  | adCopy
  | socialMedia
  deriving DecidableEq, Repr

/-- The content type each endpoint passes to `handleGeneration`. -/
def Route.contentType : Route → String
  | .blogPost => "blog-post"
  | .productDescription => "product-description"
  | .adCopy => "ad-copy"
  | .socialMedia => "social-media"

/-- The exported handlers `generateBlogPost`, `generateProductDescription`,
`generateAdCopy` and `generateSocialMedia`. -/
def generate (route : Route) (db : Db) (env : GenerationEnv) (user : User)
    (body : GenerateBody) : Response × Db :=
  handleGeneration db env user body route.contentType

/-- The query string of a history request; `none` is an absent parameter. -/
structure HistoryQuery where
  page : Option String
  limit : Option String
  deriving DecidableEq, Repr

/-- The `page` that `getHistory` computes from the query. -/
def historyPage (query : HistoryQuery) : JsNumber :=
  orDefault (parseInt (queryText query.page)) 1

/-- The `limit` that `getHistory` computes from the query. -/
def historyLimit (query : HistoryQuery) : JsNumber :=
  orDefault (parseInt (queryText query.limit)) 10

/-- The `skip` that `getHistory` computes from the query. -/
def historySkip (query : HistoryQuery) : JsNumber :=
  ((historyPage query).sub (.finite 1)).mul (historyLimit query)

/-- Outcomes of the two store calls of `getHistory`: their rejections, and the answer
of the store to a `limit` or `skip` beyond the safe integers. -/
structure HistoryEnv where
  findError : Option String
  countError : Option String
  beyondSafe : Except String (List Generation)

/-- The handler `getHistory(req, res)`. -/
def getHistory (db : Db) (env : HistoryEnv) (user : User) (query : HistoryQuery) :
    Response × Db :=
  let page := historyPage query
  let limit := historyLimit query
  let skip := historySkip query
  match Generation.findPage db env.findError env.beyondSafe user._id limit skip with
  | .error error => (failed "Failed to fetch generation history" error, db)
  | .ok generations =>
    match Generation.countDocuments db env.countError user._id with
    | .error error => (failed "Failed to fetch generation history" error, db)
    | .ok total =>
      ({ status := 200, success := true, message := none,
         payload := .history generations page limit total (mathCeilDiv total limit) }, db)

/-- The handler `getGeneration(req, res)`, where `id` is `req.params.id`. -/
def getGeneration (db : Db) (findError : Option String) (user : User) (id : String) :
    Response × Db :=
  match Generation.findById db findError id with
  | .error error => (failed "Failed to fetch generation" error, db)
  | .ok none =>
    ({ status := 404, success := false, message := some "Generation not found",
       payload := .empty }, db)
  | .ok (some generation) =>
    if generation.user ≠ user._id then
      ({ status := 403, success := false,
         message := some "Not authorized to access this generation", payload := .empty }, db)
    else
      ({ status := 200, success := true, message := none, payload := .record generation }, db)

/-- The handler `deleteGeneration(req, res)`, where `id` is `req.params.id`. -/
def deleteGeneration (db : Db) (findError deleteError : Option String) (user : User)
    (id : String) : Response × Db :=
  match Generation.findById db findError id with
  | .error error => (failed "Failed to delete generation" error, db)
  | .ok none =>
    ({ status := 404, success := false, message := some "Generation not found",
       payload := .empty }, db)
  | .ok (some generation) =>
    if generation.user ≠ user._id then
      ({ status := 403, success := false,
         message := some "Not authorized to delete this generation", payload := .empty }, db)
    else
      match Generation.deleteOne db deleteError generation with
      | .error error => (failed "Failed to delete generation" error, db)
      | .ok stored =>
        ({ status := 200, success := true, message := some "Generation deleted successfully",
           payload := .empty }, stored)

/-- The `$group` stage by `contentType` with a count per group. -/
def countByType (generations : List Generation) : List (String × Nat) :=
  (generations.map (fun g => g.contentType)).dedup.map
    (fun t => (t, generations.countP (fun g => g.contentType = t)))

/-- The handler `getStats(req, res)`; `storeError` is the first rejection among its
three store calls. -/
def getStats (db : Db) (storeError : Option String) (user : User) : Response × Db :=
  match storeError with
  | some error => (failed "Failed to fetch statistics" error, db)
  | none =>
    let owned := Generation.ownedBy db user._id
    ({ status := 200, success := true, message := none,
       payload := .stats owned.length (owned.map (fun g => g.tokensUsed)).sum user.tokensRemaining
         user.subscriptionTier (countByType owned) }, db)

/-! ## Requests handled one after another -/

/-- Modelled from the spec: the authentication collaborator (`middleware/auth`, which
`routes/generationRoutes.js` installs before every handler and which is not among the
sources) injects the owner identity. The `req.user` of a request is the stored
document of the authenticated user at the time the request starts. -/
def protect (db : Db) (caller : ObjectId) : User :=
  { _id := caller
    tokensRemaining := db.tokensRemaining caller
    subscriptionTier := db.subscriptionTier caller }

/-- One authenticated request to a route of `routes/generationRoutes.js`, with the
outcomes of the external calls its handler awaits. -/
inductive Call where
  | generate (caller : ObjectId) (route : Route) (body : GenerateBody) (env : GenerationEnv)
  | getHistory (caller : ObjectId) (query : HistoryQuery) (env : HistoryEnv)
  | getGeneration (caller : ObjectId) (id : String) (findError : Option String)
  | deleteGeneration (caller : ObjectId) (id : String) (findError deleteError : Option String)
  | getStats (caller : ObjectId) (storeError : Option String)

/-- The authenticated user of a request. -/
def Call.caller : Call → ObjectId
  | .generate caller _ _ _ => caller
  | .getHistory caller _ _ => caller
  | .getGeneration caller _ _ => caller
  | .deleteGeneration caller _ _ _ => caller
  | .getStats caller _ => caller

/-- One request handled from start to end: `protect`, then the handler of the route. -/
def step (db : Db) : Call → Response × Db
  | .generate caller route body env => generate route db env (protect db caller) body
  | .getHistory caller query env => getHistory db env (protect db caller) query
  | .getGeneration caller id findError => getGeneration db findError (protect db caller) id
  | .deleteGeneration caller id findError deleteError =>
    deleteGeneration db findError deleteError (protect db caller) id
  | .getStats caller storeError => getStats db storeError (protect db caller)

/-- The stored state after a sequence of requests handled one after another. -/
def run (db : Db) : List Call → Db
  | [] => db
  | call :: calls => run (step db call).2 calls

/-- Total `tokensUsed` of the records a user owns. -/
def spent (db : Db) (owner : ObjectId) : Nat :=
  ((Generation.ownedBy db owner).map (fun g => g.tokensUsed)).sum

/-- A request that removed a record from the store. -/
def removesRecord (db : Db) (call : Call) : Prop :=
  (step db call).2.generations.length < db.generations.length

/-- A request that changed the balance of its caller and stored no record. -/
def debitsWithoutRecord (db : Db) (call : Call) : Prop :=
  (step db call).2.tokensRemaining call.caller ≠ db.tokensRemaining call.caller ∧
    (step db call).2.generations = db.generations

/-- No request of the sequence, run from `db`, removes a record or debits without
storing a record. -/
def Lossless (db : Db) : List Call → Prop
  | [] => True
  | call :: calls =>
    ¬ removesRecord db call ∧ ¬ debitsWithoutRecord db call ∧ Lossless (step db call).2 calls

/-! ## Several generation requests of one user -/

/-- A generation request of `caller` whose generator call succeeds with cost `amount`:
its prompt is not empty and `generateContent` returns `tokensUsed = amount`. -/
def costs (caller : ObjectId) (amount : Nat) : Call → Prop
  | .generate c route body env =>
    c = caller ∧
      ∃ prompt content : String, body.prompt = some prompt ∧ prompt ≠ "" ∧
        generateContent route.contentType prompt (body.model.getD "gemini-2.5-flash")
          env.backend = .ok { content := content, tokensUsed := amount }
  | _ => False

/-- Number of requests of a sequence, handled one after another from `db`, that passed
the balance check and saved their debit: the requests that changed the stored balance
of `owner`. -/
def debitCount (db : Db) (owner : ObjectId) : List Call → Nat
  | [] => 0
  | call :: calls =>
    (if (step db call).2.tokensRemaining owner = db.tokensRemaining owner then 0 else 1) +
      debitCount (step db call).2 owner calls

/-- Number of requests of a sequence, handled one after another from `db`, that were
answered with 201. -/
def createdCount (db : Db) : List Call → Nat
  | [] => 0
  | call :: calls =>
    (if (step db call).1.status = 201 then 1 else 0) + createdCount (step db call).2 calls

/-! ## Sample data -/

/-- A store without records in which every user holds 50 tokens. -/
def sampleDb : Db :=
  { tokensRemaining := fun _ => 50, subscriptionTier := fun _ => "free", generations := [] }

/-- A generation request body with a prompt and no model. -/
def sampleBody : GenerateBody :=
  { prompt := some "Write a tagline for a coffee shop", model := none }

/-- External outcomes where the backend answers with the empty text and the store
accepts every write. -/
def emptyOutputEnv : GenerationEnv :=
  { backend := .ok "", saveError := none, createError := none, newId := "g1", now := 1 }

/-- External outcomes where the backend answers with a text, the balance is saved and
the store then rejects the insertion of the record. -/
def createFailsEnv : GenerationEnv :=
  { backend := .ok "Fresh beans, warm hearts.", saveError := none,
    createError := some "connection lost", newId := "g1", now := 1 }

/-- External outcomes where the backend answers with a text and the store accepts
every write. -/
def successEnv : GenerationEnv :=
  { backend := .ok "Fresh beans, warm hearts.", saveError := none, createError := none,
    newId := "g1", now := 1 }

/-- External outcomes of a second request for which every external call succeeds. -/
def secondEnv : GenerationEnv :=
  { backend := .ok "Fresh beans, warm hearts.", saveError := none, createError := none,
    newId := "g2", now := 2 }

/-- The identifier of user `a`. -/
def userA : ObjectId :=
  "65f0000000000000000000aa"

/-- The identifier of user `b`. -/
def userB : ObjectId :=
  "65f0000000000000000000bb"

/-- The identifier of the sample record. -/
def recordId : ObjectId :=
  "65f000000000000000000007"

/-- Outcomes of the store calls of `getHistory` when both resolve. -/
def historyOk : HistoryEnv :=
  { findError := none, countError := none, beyondSafe := .error "not a safe integer" }

/-- A record owned by user `b`. -/
def sampleRecord : Generation :=
  { _id := recordId, user := userB, contentType := "ad-copy", prompt := "Sell my bike",
    output := "Ride into the sunset.", tokensUsed := 40, model := "gemini-2.5-flash",
    createdAt := 7 }

/-- A store that holds the record of user `b` and nothing else. -/
def ownedDb : Db :=
  { tokensRemaining := fun _ => 10, subscriptionTier := fun _ => "free",
    generations := [sampleRecord] }

/-- Three records: two of user `b` and one of user `a`. -/
def historyDb : Db :=
  { tokensRemaining := fun _ => 10, subscriptionTier := fun _ => "free",
    generations :=
      [sampleRecord,
       { sampleRecord with _id := "65f000000000000000000008", user := userA, createdAt := 8 },
       { sampleRecord with _id := "65f000000000000000000009", createdAt := 9 }] }

/-- The sample generation request of user `u` when the backend answers with the empty
text. -/
def emptyOutputCall : Call :=
  .generate "u" .blogPost sampleBody emptyOutputEnv

/-- The sample generation request of user `u` when every external call succeeds. -/
def successCall : Call :=
  .generate "u" .blogPost sampleBody successEnv

/-! ## Theorems: the cost estimate of `generateContent` -/

/-- The integer `ceilDiv4 n` is the ceiling of the quotient `n / 4`. -/
theorem ceilDiv4_eq_ceil (n : Nat) : ((ceilDiv4 n : Nat) : Int) = ⌈(n : ℚ) / 4⌉ := by
  symm
  rw [Int.ceil_eq_iff]
  unfold ceilDiv4
  obtain ⟨q, hq⟩ : ∃ q, q = (n + 3) / 4 := ⟨_, rfl⟩
  rw [← hq]
  have h1 : 4 * q ≤ n + 3 := by omega
  have h2 : n ≤ 4 * q := by omega
  have h1q : (4 : ℚ) * q ≤ n + 3 := by exact_mod_cast h1
  have h2q : (n : ℚ) ≤ 4 * q := by exact_mod_cast h2
  rw [Int.cast_natCast]
  constructor
  · rw [lt_div_iff₀ (by norm_num)]
    linarith
  · rw [div_le_iff₀ (by norm_num)]
    linarith

/-- The length of a concatenation is the sum of the lengths. -/
theorem jsLength_append (a b : String) : jsLength (a ++ b) = jsLength a + jsLength b := by
  simp [jsLength, String.toList]

/-- The full prompt is the system prompt, sixteen separator characters and the prompt. -/
theorem fullPrompt_length (contentType prompt : String) :
    jsLength (fullPrompt contentType prompt) =
      jsLength (systemPrompt contentType) + 16 + jsLength prompt := by
  unfold fullPrompt
  rw [jsLength_append, jsLength_append]
  rfl

/-- The four content types of the table get their fixed instruction. -/
theorem systemPrompt_table :
    systemPrompt "blog-post" = "You are an expert blog writer. Create engaging, SEO-optimized blog content that is informative and well-structured." ∧
    systemPrompt "product-description" = "You are an expert e-commerce copywriter. Create compelling product descriptions that highlight benefits and drive conversions." ∧
    systemPrompt "ad-copy" = "You are an expert advertising copywriter. Create persuasive, attention-grabbing ad copy that drives action." ∧
    systemPrompt "social-media" = "You are a social media expert. Create engaging, viral-worthy social media posts that encourage interaction." := by
  refine ⟨?_, ?_, ?_, ?_⟩ <;> rfl

/-- A content type that names neither an entry of the table nor a property inherited
from `Object.prototype` gets the fallback instruction. -/
theorem systemPrompt_fallback (contentType : String)
    (hown : SYSTEM_PROMPTS.lookup contentType = none)
    (hproto : objectPrototype.lookup contentType = none) :
    systemPrompt contentType = fallbackPrompt := by
  simp [systemPrompt, hown, hproto]

/-- Whatever the content type, prompt, model and backend text, `generateContent`
returns the text with `tokensUsed = ceil((len(fullPrompt) + len(output)) / 4)`; the
model identifier plays no part, and the cost is at least 4. -/
theorem generateContent_cost (contentType prompt model content : String) :
    generateContent contentType prompt model (.ok content) =
      .ok { content := content
            tokensUsed := ceilDiv4 (jsLength (fullPrompt contentType prompt) + jsLength content) } ∧
    ((ceilDiv4 (jsLength (fullPrompt contentType prompt) + jsLength content) : Nat) : Int) =
      ⌈((jsLength (fullPrompt contentType prompt) + jsLength content : Nat) : ℚ) / 4⌉ ∧
    (∀ other : String, generateContent contentType prompt other (.ok content) =
      generateContent contentType prompt model (.ok content)) ∧
    4 ≤ ceilDiv4 (jsLength (fullPrompt contentType prompt) + jsLength content) := by
  refine ⟨rfl, ceilDiv4_eq_ceil _, fun _ => rfl, ?_⟩
  rw [fullPrompt_length]
  unfold ceilDiv4
  omega

/-- C10, at the content type `__proto__`: the lookup in `SYSTEM_PROMPTS` finds the
property inherited from `Object.prototype`, which is truthy, so the instruction is its
rendering `[object Object]` and not the fallback. With prompt `hi` and output `ok` the
cost is 9, where the fallback instruction would give 13. -/
theorem generateContent_inherited_property :
    SYSTEM_PROMPTS.lookup "__proto__" = none ∧
    fullPrompt "__proto__" "hi" = "[object Object]\n\nUser Request: hi" ∧
    generateContent "__proto__" "hi" "gemini-2.5-flash" (.ok "ok") =
      .ok { content := "ok", tokensUsed := 9 } ∧
    ceilDiv4 (jsLength (fallbackPrompt ++ "\n\nUser Request: " ++ "hi") + jsLength "ok") = 13 := by
  refine ⟨by decide, by decide, rfl, by decide⟩

/-! ## Theorems: the paging parameters of `getHistory` -/

/-- An integer of magnitude below `2 ^ 53` is a double. -/
theorem toDouble_safe (n : Int) (h : n.natAbs < 2 ^ 53) : toDouble n = .finite n := by
  unfold toDouble roundMagnitude
  rw [if_pos h]
  by_cases hn : n < 0
  · simp only [hn, if_true]
    congr 1
    omega
  · simp only [hn, if_false]
    congr 1
    omega

/-- What `parseInt(x) || fallback` evaluates to. -/
theorem orDefault_eq (n : JsNumber) (fallback : Int) :
    orDefault n fallback =
      if n = .nan ∨ n = .finite 0 then .finite fallback else n := by
  cases n with
  | nan => simp [orDefault]
  | finite v =>
    by_cases h : v = 0 <;> simp [orDefault, h]
  | infinite negative => simp [orDefault]

/-- The page and limit of `getHistory` are the defaults 1 and 10 when the parameter is
absent, unparsable or parses to zero, and the parsed number in every other case,
negative numbers included. -/
theorem historyPage_historyLimit (query : HistoryQuery) :
    (parseInt (queryText query.page) = .nan ∨ parseInt (queryText query.page) = .finite 0 →
      historyPage query = .finite 1) ∧
    (parseInt (queryText query.page) ≠ .nan → parseInt (queryText query.page) ≠ .finite 0 →
      historyPage query = parseInt (queryText query.page)) ∧
    (parseInt (queryText query.limit) = .nan ∨ parseInt (queryText query.limit) = .finite 0 →
      historyLimit query = .finite 10) ∧
    (parseInt (queryText query.limit) ≠ .nan → parseInt (queryText query.limit) ≠ .finite 0 →
      historyLimit query = parseInt (queryText query.limit)) := by
  refine ⟨?_, ?_, ?_, ?_⟩
  · intro h
    rw [historyPage, orDefault_eq, if_pos h]
  · intro h1 h2
    rw [historyPage, orDefault_eq, if_neg (by tauto)]
  · intro h
    rw [historyLimit, orDefault_eq, if_pos h]
  · intro h1 h2
    rw [historyLimit, orDefault_eq, if_neg (by tauto)]

/-- An absent parameter is unparsable. -/
theorem parseInt_undefined : parseInt (queryText none) = .nan := by
  decide

/-- C8, at the query `page=-1`: `parseInt` gives -1, which is truthy, so `getHistory`
uses page -1 and not the default 1; `skip` is then -20, which is negative, the store
rejects the query and the answer is 500. Likewise `limit=-5` is used as limit -5. -/
theorem getHistory_negative_page (db : Db) (env : HistoryEnv) (user : User) :
    parseInt "-1" = .finite (-1) ∧
    historyPage { page := some "-1", limit := none } = .finite (-1) ∧
    historySkip { page := some "-1", limit := none } = .finite (-20) ∧
    (getHistory db env user { page := some "-1", limit := none }).1.status = 500 ∧
    (getHistory db env user { page := some "-1", limit := none }).1.success = false ∧
    historyLimit { page := none, limit := some "-5" } = .finite (-5) := by
  have hskip : historySkip { page := some "-1", limit := none } = .finite (-20) := by decide
  have hlimit : historyLimit { page := some "-1", limit := none } = .finite 10 := by decide
  have hfind : ∃ error : String,
      Generation.findPage db env.findError env.beyondSafe user._id
        (historyLimit { page := some "-1", limit := none })
        (historySkip { page := some "-1", limit := none }) = .error error := by
    rw [hskip, hlimit]
    unfold Generation.findPage
    cases env.findError with
    | some message => exact ⟨message, rfl⟩
    | none => exact ⟨"skip value must be non-negative", by simp⟩
  obtain ⟨error, herror⟩ := hfind
  refine ⟨by decide, by decide, hskip, ?_, ?_, by decide⟩
  · simp only [getHistory, herror, failed]
  · simp only [getHistory, herror, failed]

/-! ## Theorems: `handleGeneration` -/

/-- A missing or empty prompt is answered with 400 and changes nothing. -/
theorem handleGeneration_missing_prompt (db : Db) (env : GenerationEnv) (user : User)
    (body : GenerateBody) (contentType : String)
    (hprompt : body.prompt = none ∨ body.prompt = some "") :
    handleGeneration db env user body contentType =
      ({ status := 400, success := false, message := some "Please provide a prompt",
         payload := .empty }, db) := by
  rcases hprompt with h | h <;> simp [handleGeneration, h]

/-- A failure of the generator is answered with 500 and changes nothing. -/
theorem handleGeneration_generator_error (db : Db) (env : GenerationEnv) (user : User)
    (body : GenerateBody) (contentType prompt error : String)
    (hprompt : body.prompt = some prompt) (hne : prompt ≠ "")
    (hgen : generateContent contentType prompt (body.model.getD "gemini-2.5-flash") env.backend =
      .error error) :
    handleGeneration db env user body contentType =
      (failed "Content generation failed" error, db) := by
  simp [handleGeneration, hprompt, hne, hgen]

/-- An insufficient balance is answered with 403 and changes nothing. -/
theorem handleGeneration_rejected (db : Db) (env : GenerationEnv) (user : User)
    (body : GenerateBody) (contentType prompt : String) (generated : Generated)
    (hprompt : body.prompt = some prompt) (hne : prompt ≠ "")
    (hgen : generateContent contentType prompt (body.model.getD "gemini-2.5-flash") env.backend =
      .ok generated)
    (hlow : user.tokensRemaining < generated.tokensUsed) :
    handleGeneration db env user body contentType =
      ({ status := 403, success := false,
         message := some "Insufficient tokens. Please upgrade your plan.",
         payload := .insufficient user.tokensRemaining generated.tokensUsed }, db) := by
  simp [handleGeneration, hprompt, hne, hgen, hlow]

/-- With a sufficient balance the handler goes on to the save and the creation. -/
theorem handleGeneration_debit (db : Db) (env : GenerationEnv) (user : User)
    (body : GenerateBody) (contentType prompt : String) (generated : Generated)
    (hprompt : body.prompt = some prompt) (hne : prompt ≠ "")
    (hgen : generateContent contentType prompt (body.model.getD "gemini-2.5-flash") env.backend =
      .ok generated)
    (hok : (generated.tokensUsed : Int) ≤ user.tokensRemaining) :
    handleGeneration db env user body contentType =
      match User.save db env.saveError
          { user with tokensRemaining := user.tokensRemaining - generated.tokensUsed } with
      | .error error => (failed "Content generation failed" error, db)
      | .ok saved =>
        match Generation.create saved env.createError env.newId env.now
            { user := user._id
              contentType := contentType
              prompt := prompt
              output := generated.content
              tokensUsed := generated.tokensUsed
              model := some (body.model.getD "gemini-2.5-flash") } with
        | .error error => (failed "Content generation failed" error, saved)
        | .ok (generation, stored) =>
          ({ status := 201, success := true, message := none,
             payload := .generated generation (user.tokensRemaining - generated.tokensUsed) },
           stored) := by
  have hnot : ¬ user.tokensRemaining < generated.tokensUsed := not_lt.mpr hok
  simp [handleGeneration, hprompt, hne, hgen, hnot]

/-- The documents the generation endpoints submit pass the schema validation exactly
when the generated text is not empty. -/
theorem validationErrors_route (route : Route) (owner prompt output : String) (tokensUsed : Nat)
    (model : Option String) (hne : prompt ≠ "") :
    validationErrors
      { user := owner, contentType := route.contentType, prompt := prompt, output := output,
        tokensUsed := tokensUsed, model := model } =
      if output = "" then ["output: Path `output` is required."] else [] := by
  cases route <;> simp [validationErrors, Route.contentType, contentTypeEnum, hne]

/-- C2: when the generator succeeds with a cost above the balance of the caller,
`handleGeneration` answers 403 with `success = false`, the unchanged balance as
`tokensRemaining` and the cost as `tokensRequired`; it creates no record and leaves
the balance and the whole stored state unchanged, and the same request repeated on the
resulting state is answered the same way and leaves the state unchanged again. -/
theorem handleGeneration_insufficient (db : Db) (env : GenerationEnv) (caller : ObjectId)
    (body : GenerateBody) (contentType prompt : String) (generated : Generated)
    (hprompt : body.prompt = some prompt) (hne : prompt ≠ "")
    (hgen : generateContent contentType prompt (body.model.getD "gemini-2.5-flash") env.backend =
      .ok generated)
    (hlow : db.tokensRemaining caller < generated.tokensUsed) :
    (handleGeneration db env (protect db caller) body contentType).1 =
      { status := 403, success := false,
        message := some "Insufficient tokens. Please upgrade your plan.",
        payload := .insufficient (db.tokensRemaining caller) generated.tokensUsed } ∧
    (handleGeneration db env (protect db caller) body contentType).2 = db ∧
    (handleGeneration db env (protect db caller) body contentType).2.generations =
      db.generations ∧
    (handleGeneration db env (protect db caller) body contentType).2.tokensRemaining caller =
      db.tokensRemaining caller ∧
    handleGeneration
        (handleGeneration db env (protect db caller) body contentType).2 env
        (protect (handleGeneration db env (protect db caller) body contentType).2 caller)
        body contentType =
      handleGeneration db env (protect db caller) body contentType := by
  have h := handleGeneration_rejected db env (protect db caller) body contentType prompt
    generated hprompt hne hgen hlow
  have h2 : (handleGeneration db env (protect db caller) body contentType).2 = db := by
    rw [h]
  refine ⟨?_, h2, ?_, ?_, ?_⟩
  · rw [h]; rfl
  · rw [h2]
  · rw [h2]
  · rw [h2]

set_option maxRecDepth 8000 in
/-- Witness of C2: the sample request of a user holding 5 tokens costs 48. -/
theorem handleGeneration_insufficient_witness :
    (handleGeneration { sampleDb with tokensRemaining := fun _ => 5 } successEnv
        (protect { sampleDb with tokensRemaining := fun _ => 5 } "u") sampleBody "blog-post").1 =
      { status := 403, success := false,
        message := some "Insufficient tokens. Please upgrade your plan.",
        payload := .insufficient 5 48 } :=
  (handleGeneration_insufficient { sampleDb with tokensRemaining := fun _ => 5 } successEnv "u"
    sampleBody "blog-post" "Write a tagline for a coffee shop"
    { content := "Fresh beans, warm hearts.", tokensUsed := 48 } rfl (by decide) rfl
    (by decide)).1

/-- The state a successful `save` of a debited user leaves behind. -/
theorem User.save_ok (db : Db) (user : User) :
    User.save db none user =
      .ok { db with
        tokensRemaining := Function.update db.tokensRemaining user._id user.tokensRemaining } :=
  rfl

/-- A rejected `save` is an error. -/
theorem User.save_error (db : Db) (user : User) (message : String) :
    User.save db (some message) user = .error message :=
  rfl

/-- A successful `Generation.create` appends one record that carries the submitted
fields and leaves the balances alone. -/
theorem Generation.create_ok (db : Db) (storeError : Option String) (newId : ObjectId)
    (now : Nat) (doc : GenerationInput) (generation : Generation) (stored : Db)
    (h : Generation.create db storeError newId now doc = .ok (generation, stored)) :
    generation =
      { _id := newId, user := doc.user, contentType := doc.contentType, prompt := doc.prompt,
        output := doc.output, tokensUsed := doc.tokensUsed,
        model := doc.model.getD "gpt-3.5-turbo", createdAt := now } ∧
    stored = { db with generations := db.generations ++ [generation] } ∧
    validationErrors doc = [] ∧ storeError = none := by
  unfold Generation.create at h
  split at h
  · cases h
  · rename_i hvalid
    split at h
    · cases h
    · simp only [Except.ok.injEq, Prod.mk.injEq] at h
      obtain ⟨h1, h2⟩ := h
      subst h1
      exact ⟨rfl, h2.symm, hvalid, rfl⟩

/-- When the document is valid and the store accepts it, `Generation.create` succeeds. -/
theorem Generation.create_valid (db : Db) (newId : ObjectId) (now : Nat) (doc : GenerationInput)
    (hvalid : validationErrors doc = []) :
    Generation.create db none newId now doc =
      .ok ({ _id := newId, user := doc.user, contentType := doc.contentType,
             prompt := doc.prompt, output := doc.output, tokensUsed := doc.tokensUsed,
             model := doc.model.getD "gpt-3.5-turbo", createdAt := now },
           { db with generations := db.generations ++
               [{ _id := newId, user := doc.user, contentType := doc.contentType,
                  prompt := doc.prompt, output := doc.output, tokensUsed := doc.tokensUsed,
                  model := doc.model.getD "gpt-3.5-turbo", createdAt := now }] }) := by
  simp [Generation.create, hvalid]

/-- C1 as amended: for every generation request with a non-empty prompt whose
generator call succeeds with a non-empty output and cost `tokensUsed`, and whose
balance save and record insertion the store accepts, if the balance of the caller is at
least `tokensUsed` before the call, then exactly one generation record is created
(carrying that user, the content type of the route, the prompt, the output,
`tokensUsed` and the model), the stored balance afterwards is the previous balance
minus `tokensUsed`, no other balance changes, and the answer is 201 with
`data.tokensRemaining` equal to the new stored balance. -/
theorem generate_success (route : Route) (db : Db) (env : GenerationEnv) (caller : ObjectId)
    (body : GenerateBody) (prompt : String) (generated : Generated)
    (hprompt : body.prompt = some prompt) (hne : prompt ≠ "")
    (hgen : generateContent route.contentType prompt (body.model.getD "gemini-2.5-flash")
      env.backend = .ok generated)
    (hout : generated.content ≠ "") (hsave : env.saveError = none)
    (hcreate : env.createError = none)
    (hbal : (generated.tokensUsed : Int) ≤ db.tokensRemaining caller) :
    ∃ generation : Generation,
      generation =
        { _id := env.newId, user := caller, contentType := route.contentType, prompt := prompt,
          output := generated.content, tokensUsed := generated.tokensUsed,
          model := body.model.getD "gemini-2.5-flash", createdAt := env.now } ∧
      (generate route db env (protect db caller) body).2.generations =
        db.generations ++ [generation] ∧
      (generate route db env (protect db caller) body).2.tokensRemaining caller =
        db.tokensRemaining caller - generated.tokensUsed ∧
      (∀ other : ObjectId, other ≠ caller →
        (generate route db env (protect db caller) body).2.tokensRemaining other =
          db.tokensRemaining other) ∧
      (generate route db env (protect db caller) body).1 =
        { status := 201, success := true, message := none,
          payload := .generated generation
            ((generate route db env (protect db caller) body).2.tokensRemaining caller) } := by
  have hvalid := validationErrors_route route caller prompt generated.content
    generated.tokensUsed (some (body.model.getD "gemini-2.5-flash")) hne
  rw [if_neg hout] at hvalid
  have h := handleGeneration_debit db env (protect db caller) body route.contentType prompt
    generated hprompt hne hgen hbal
  rw [hsave, hcreate, User.save_ok] at h
  simp only [protect] at h hvalid ⊢
  rw [Generation.create_valid _ _ _ _ hvalid] at h
  simp only [generate, protect]
  rw [h]
  refine ⟨_, rfl, ?_, ?_, ?_, ?_⟩
  · simp
  · simp
  · intro other hother
    simp [Function.update, hother]
  · simp

set_option maxRecDepth 8000 in
/-- Witness of the amended C1: the sample request of a user holding 50 tokens costs 48
and leaves 2. -/
theorem generate_success_witness :
    ∃ generation : Generation,
      generation =
        { _id := "g1", user := "u", contentType := "blog-post",
          prompt := "Write a tagline for a coffee shop", output := "Fresh beans, warm hearts.",
          tokensUsed := 48, model := "gemini-2.5-flash", createdAt := 1 } ∧
      (generate .blogPost sampleDb successEnv (protect sampleDb "u") sampleBody).2.generations =
        [] ++ [generation] ∧
      (generate .blogPost sampleDb successEnv (protect sampleDb "u")
        sampleBody).2.tokensRemaining "u" = 50 - ((48 : Nat) : Int) ∧
      (∀ other : ObjectId, other ≠ "u" →
        (generate .blogPost sampleDb successEnv (protect sampleDb "u")
          sampleBody).2.tokensRemaining other = 50) ∧
      (generate .blogPost sampleDb successEnv (protect sampleDb "u") sampleBody).1 =
        { status := 201, success := true, message := none,
          payload := .generated generation
            ((generate .blogPost sampleDb successEnv (protect sampleDb "u")
              sampleBody).2.tokensRemaining "u") } :=
  generate_success .blogPost sampleDb successEnv "u" sampleBody
    "Write a tagline for a coffee shop"
    { content := "Fresh beans, warm hearts.", tokensUsed := 48 } rfl (by decide) rfl (by decide)
    rfl rfl (by decide)

set_option maxRecDepth 8000 in
/-- Counterexample to C1: the prompt is not empty, the generator succeeds with cost 41
(its output is the empty text), the store accepts every write and the caller holds 50
tokens, yet no record is created: the schema rejects the empty `output`, the answer is
500, and the stored balance has gone down to 9. -/
theorem generate_empty_output_counterexample :
    generateContent "blog-post" "Write a tagline for a coffee shop" "gemini-2.5-flash"
        emptyOutputEnv.backend = .ok { content := "", tokensUsed := 41 } ∧
    ((41 : Nat) : Int) ≤ sampleDb.tokensRemaining "u" ∧
    (generate .blogPost sampleDb emptyOutputEnv (protect sampleDb "u") sampleBody).1 =
      failed "Content generation failed"
        "Generation validation failed: output: Path `output` is required." ∧
    (generate .blogPost sampleDb emptyOutputEnv (protect sampleDb "u") sampleBody).2.generations =
      sampleDb.generations ∧
    (generate .blogPost sampleDb emptyOutputEnv (protect sampleDb "u")
      sampleBody).2.tokensRemaining "u" = 9 := by
  refine ⟨rfl, by decide, rfl, rfl, rfl⟩

set_option maxRecDepth 8000 in
/-- Counterexample to C3: the caller holds 50 tokens and the generator succeeds with
cost 48. When the store rejects the insertion of the record after the balance was
saved, the answer is 500, no record exists and the stored balance is 2. The same
partial state arises without any store failure when the generated text is empty and
the schema rejects the record: no record exists and the stored balance is 9. -/
theorem handleGeneration_partial_state_counterexample :
    sampleDb.tokensRemaining "u" = 50 ∧
    (handleGeneration sampleDb createFailsEnv (protect sampleDb "u") sampleBody "blog-post").1 =
      failed "Content generation failed" "connection lost" ∧
    (handleGeneration sampleDb createFailsEnv (protect sampleDb "u") sampleBody
      "blog-post").2.generations = [] ∧
    (handleGeneration sampleDb createFailsEnv (protect sampleDb "u") sampleBody
      "blog-post").2.tokensRemaining "u" = 2 ∧
    (handleGeneration sampleDb emptyOutputEnv (protect sampleDb "u") sampleBody
      "blog-post").2.generations = [] ∧
    (handleGeneration sampleDb emptyOutputEnv (protect sampleDb "u") sampleBody
      "blog-post").2.tokensRemaining "u" = 9 := by
  refine ⟨rfl, rfl, rfl, rfl, rfl, rfl⟩

/-- C3 as amended: for every generation request and every outcome of its steps, after
`handleGeneration` returns one of three holds. Either the stored state is unchanged and
no record was created (validation failure, generator failure, insufficient balance,
failure of the balance save). Or the answer is 201, exactly one record was created and
the balance of the caller has been debited by the `tokensUsed` of that record. Or the
balance save succeeded and `Generation.create` then failed (a store error or a schema
validation error): the answer is 500, the balance of the caller has been debited by
`tokensUsed` and no record was created; the debit is not rolled back. -/
theorem handleGeneration_outcomes (db : Db) (env : GenerationEnv) (caller : ObjectId)
    (body : GenerateBody) (contentType : String) :
    (handleGeneration db env (protect db caller) body contentType).2 = db ∨
    (∃ generation : Generation,
      (handleGeneration db env (protect db caller) body contentType).1.status = 201 ∧
      (handleGeneration db env (protect db caller) body contentType).2.generations =
        db.generations ++ [generation] ∧
      generation.user = caller ∧
      (generation.tokensUsed : Int) ≤ db.tokensRemaining caller ∧
      (handleGeneration db env (protect db caller) body contentType).2.tokensRemaining =
        Function.update db.tokensRemaining caller
          (db.tokensRemaining caller - generation.tokensUsed)) ∨
    (∃ (prompt : String) (generated : Generated) (error : String),
      body.prompt = some prompt ∧
      generateContent contentType prompt (body.model.getD "gemini-2.5-flash") env.backend =
        .ok generated ∧
      env.saveError = none ∧
      Generation.create (handleGeneration db env (protect db caller) body contentType).2
          env.createError env.newId env.now
          { user := caller, contentType := contentType, prompt := prompt,
            output := generated.content, tokensUsed := generated.tokensUsed,
            model := some (body.model.getD "gemini-2.5-flash") } = .error error ∧
      (handleGeneration db env (protect db caller) body contentType).1 =
        failed "Content generation failed" error ∧
      (handleGeneration db env (protect db caller) body contentType).2.generations =
        db.generations ∧
      (generated.tokensUsed : Int) ≤ db.tokensRemaining caller ∧
      (handleGeneration db env (protect db caller) body contentType).2.tokensRemaining =
        Function.update db.tokensRemaining caller
          (db.tokensRemaining caller - generated.tokensUsed)) := by
  rcases hp : body.prompt with _ | prompt
  · left
    rw [handleGeneration_missing_prompt db env _ body contentType (Or.inl hp)]
  by_cases hne : prompt = ""
  · left
    subst hne
    rw [handleGeneration_missing_prompt db env _ body contentType (Or.inr hp)]
  rcases hgen : generateContent contentType prompt (body.model.getD "gemini-2.5-flash")
    env.backend with error | generated
  · left
    rw [handleGeneration_generator_error db env _ body contentType prompt error hp hne hgen]
  by_cases hlow : db.tokensRemaining caller < generated.tokensUsed
  · left
    rw [handleGeneration_rejected db env (protect db caller) body contentType prompt generated
      hp hne hgen hlow]
  have hok : (generated.tokensUsed : Int) ≤ (protect db caller).tokensRemaining :=
    not_lt.mp hlow
  have h := handleGeneration_debit db env (protect db caller) body contentType prompt generated
    hp hne hgen hok
  rcases hsave : env.saveError with _ | message
  swap
  · left
    rw [h, hsave, User.save_error]
  rw [hsave, User.save_ok] at h
  simp only [protect] at h hok
  rcases hcreate : Generation.create
      { db with
        tokensRemaining := (Function.update db.tokensRemaining caller
          (db.tokensRemaining caller - generated.tokensUsed)) }
      env.createError env.newId env.now
      { user := caller, contentType := contentType, prompt := prompt,
        output := generated.content, tokensUsed := generated.tokensUsed,
        model := some (body.model.getD "gemini-2.5-flash") } with error | ⟨generation, stored⟩
  · right; right
    rw [hcreate] at h
    simp only [protect]
    refine ⟨prompt, generated, error, ?_, hgen, ?_, ?_, ?_, ?_, hok, ?_⟩
    · rfl
    · trivial
    · rw [h]; exact hcreate
    · rw [h]
    · rw [h]
    · rw [h]
  · right; left
    rw [hcreate] at h
    obtain ⟨hg, hs, -, -⟩ := Generation.create_ok _ _ _ _ _ _ _ hcreate
    simp only [protect]
    refine ⟨generation, ?_, ?_, ?_, ?_, ?_⟩
    · rw [h]
    · rw [h, hs]
    · rw [hg]
    · rw [hg]; exact hok
    · rw [h, hs, hg]

/-! ## Theorems: `getGeneration` and `deleteGeneration` -/

/-- When identifiers are unique in the store, the lookup by the identifier of a stored
record finds that record. -/
theorem find?_stored (generations : List Generation) (generation : Generation)
    (hmem : generation ∈ generations)
    (hunique : ∀ other ∈ generations, other._id = generation._id → other = generation) :
    generations.find? (fun g => g._id = generation._id) = some generation := by
  rcases hfind : generations.find? (fun g => g._id = generation._id) with _ | found
  · rw [List.find?_eq_none] at hfind
    exact absurd (by simp) (hfind generation hmem)
  · have hid := List.find?_some hfind
    have heq := hunique found (List.mem_of_find?_eq_some hfind) (by simpa using hid)
    rw [hfind, heq]

/-- A string of 24 hexadecimal digits in lower case is the text of an `ObjectId`. -/
theorem castObjectId_recordId : castObjectId recordId = some recordId := by
  decide

/-- C4 as amended: let `id` be a well-formed identifier (24 hexadecimal digits) and
`generation` the record the store holds under it. For a caller who is not its owner,
`getGeneration` and `deleteGeneration` answer 403 with `success = false` and a body
without any field of the record, and leave the store unchanged, so the record is still
present. When the store holds no record under the well-formed `id` both answer 404.
When the caller is the owner, `getGeneration` returns the record and `deleteGeneration`
removes exactly that record, refunding nothing. For every request string `id`,
well-formed or not, and every outcome of the store calls: a caller who does not own
the record under `id` is shown no record and changes nothing, a response of
`getGeneration` that shows a record implies that the caller owns it, and a
`deleteGeneration` that changes the store has removed exactly the record under `id`,
which the caller owns. -/
theorem ownership_enforced (db : Db) (caller : ObjectId) (id : String)
    (findError deleteError : Option String) :
    (∀ (oid : ObjectId) (generation : Generation),
      castObjectId id = some oid →
      db.generations.find? (fun g => g._id = oid) = some generation →
      generation.user ≠ caller →
        getGeneration db none (protect db caller) id =
          ({ status := 403, success := false,
             message := some "Not authorized to access this generation",
             payload := .empty }, db) ∧
        deleteGeneration db none deleteError (protect db caller) id =
          ({ status := 403, success := false,
             message := some "Not authorized to delete this generation",
             payload := .empty }, db) ∧
        (getGeneration db findError (protect db caller) id).1.records = [] ∧
        (getGeneration db findError (protect db caller) id).2 = db ∧
        (deleteGeneration db findError deleteError (protect db caller) id).1.records = [] ∧
        (deleteGeneration db findError deleteError (protect db caller) id).2 = db ∧
        generation ∈
          (deleteGeneration db findError deleteError (protect db caller) id).2.generations) ∧
    (∀ oid : ObjectId,
      castObjectId id = some oid →
      db.generations.find? (fun g => g._id = oid) = none →
        getGeneration db none (protect db caller) id =
          ({ status := 404, success := false, message := some "Generation not found",
             payload := .empty }, db) ∧
        deleteGeneration db none deleteError (protect db caller) id =
          ({ status := 404, success := false, message := some "Generation not found",
             payload := .empty }, db)) ∧
    (∀ (oid : ObjectId) (generation : Generation),
      castObjectId id = some oid →
      db.generations.find? (fun g => g._id = oid) = some generation →
      generation.user = caller →
        getGeneration db none (protect db caller) id =
          ({ status := 200, success := true, message := none, payload := .record generation },
           db) ∧
        deleteGeneration db none none (protect db caller) id =
          ({ status := 200, success := true, message := some "Generation deleted successfully",
             payload := .empty },
           { db with generations := db.generations.erase generation })) ∧
    ((getGeneration db findError (protect db caller) id).1.records ≠ [] →
      ∃ (oid : ObjectId) (generation : Generation),
        castObjectId id = some oid ∧
        db.generations.find? (fun g => g._id = oid) = some generation ∧
        generation.user = caller ∧
        (getGeneration db findError (protect db caller) id).1.records = [generation]) ∧
    ((deleteGeneration db findError deleteError (protect db caller) id).2.generations ≠
        db.generations →
      ∃ (oid : ObjectId) (generation : Generation),
        castObjectId id = some oid ∧
        db.generations.find? (fun g => g._id = oid) = some generation ∧
        generation.user = caller ∧
        (deleteGeneration db findError deleteError (protect db caller) id).2.generations =
          db.generations.erase generation) := by
  refine ⟨?_, ?_, ?_, ?_, ?_⟩
  · intro oid generation hcast hfind howner
    have hmem : generation ∈ db.generations := List.mem_of_find?_eq_some hfind
    refine ⟨?_, ?_, ?_, ?_, ?_, ?_, ?_⟩
    · simp [getGeneration, Generation.findById, hcast, hfind, protect, howner]
    · simp [deleteGeneration, Generation.findById, hcast, hfind, protect, howner]
    · cases findError <;>
        simp [getGeneration, Generation.findById, hcast, hfind, protect, howner,
          Response.records, failed]
    · cases findError <;>
        simp [getGeneration, Generation.findById, hcast, hfind, protect, howner]
    · cases findError <;>
        simp [deleteGeneration, Generation.findById, hcast, hfind, protect, howner,
          Response.records, failed]
    · cases findError <;>
        simp [deleteGeneration, Generation.findById, hcast, hfind, protect, howner]
    · cases findError <;>
        simp [deleteGeneration, Generation.findById, hcast, hfind, protect, howner, hmem]
  · intro oid hcast hfind
    constructor
    · simp [getGeneration, Generation.findById, hcast, hfind]
    · simp [deleteGeneration, Generation.findById, hcast, hfind]
  · intro oid generation hcast hfind howner
    constructor
    · simp [getGeneration, Generation.findById, hcast, hfind, protect, howner]
    · simp [deleteGeneration, Generation.findById, Generation.deleteOne, hcast, hfind, protect,
        howner]
  · intro hshown
    rcases hcast : castObjectId id with _ | oid
    · simp [getGeneration, Generation.findById, hcast, Response.records, failed] at hshown
    cases findError with
    | some message =>
      simp [getGeneration, Generation.findById, hcast, Response.records, failed] at hshown
    | none =>
      rcases hfind : db.generations.find? (fun g => g._id = oid) with _ | generation
      · simp [getGeneration, Generation.findById, hcast, hfind, Response.records] at hshown
      · by_cases howner : generation.user = caller
        · refine ⟨oid, generation, rfl, hfind, howner, ?_⟩
          simp [getGeneration, Generation.findById, hcast, hfind, protect, howner,
            Response.records]
        · simp [getGeneration, Generation.findById, hcast, hfind, protect, howner,
            Response.records] at hshown
  · intro hchanged
    rcases hcast : castObjectId id with _ | oid
    · simp [deleteGeneration, Generation.findById, hcast] at hchanged
    cases findError with
    | some message => simp [deleteGeneration, Generation.findById, hcast] at hchanged
    | none =>
      rcases hfind : db.generations.find? (fun g => g._id = oid) with _ | generation
      · simp [deleteGeneration, Generation.findById, hcast, hfind] at hchanged
      · by_cases howner : generation.user = caller
        · refine ⟨oid, generation, rfl, hfind, howner, ?_⟩
          cases deleteError with
          | some message =>
            simp [deleteGeneration, Generation.findById, Generation.deleteOne, hcast, hfind,
              protect, howner] at hchanged
          | none =>
            simp [deleteGeneration, Generation.findById, Generation.deleteOne, hcast, hfind,
              protect, howner]
        · simp [deleteGeneration, Generation.findById, hcast, hfind, protect, howner]
            at hchanged

/-- Witness of the amended C4: user `a` asks to delete the record of user `b`; the
answer is 403 and the record is still in the store. -/
theorem ownership_enforced_witness :
    deleteGeneration ownedDb none none (protect ownedDb userA) recordId =
      ({ status := 403, success := false,
         message := some "Not authorized to delete this generation",
         payload := .empty }, ownedDb) ∧
    sampleRecord ∈
      (deleteGeneration ownedDb none none (protect ownedDb userA) recordId).2.generations :=
  ⟨((ownership_enforced ownedDb userA recordId none none).1 recordId sampleRecord
      castObjectId_recordId (by decide) (by decide)).2.1,
   ((ownership_enforced ownedDb userA recordId none none).1 recordId sampleRecord
      castObjectId_recordId (by decide) (by decide)).2.2.2.2.2.2⟩

/-- Counterexample to C4: the store holds no record under the request string `zz`,
and yet `getGeneration` and `deleteGeneration` do not answer 404: the string is not an
`ObjectId`, the lookup is rejected with a cast error, and both answer 500. -/
theorem malformed_id_counterexample :
    (∀ g ∈ ownedDb.generations, g._id ≠ "zz") ∧
    castObjectId "zz" = none ∧
    (getGeneration ownedDb none (protect ownedDb userA) "zz").1.status = 500 ∧
    (deleteGeneration ownedDb none none (protect ownedDb userA) "zz").1.status = 500 ∧
    (getGeneration ownedDb none (protect ownedDb userA) "zz").1 =
      failed "Failed to fetch generation"
        "Cast to ObjectId failed for value \"zz\" (type string) at path \"_id\" for model \"Generation\"" := by
  refine ⟨by decide, by decide, rfl, rfl, rfl⟩

/-! ## Theorems: `getHistory` -/

/-- For a positive limit, `ceilDiv total limit` is the ceiling of `total / limit`. -/
theorem ceilDiv_eq_ceil (total : Nat) (limit : Int) (hlimit : 0 < limit) :
    ceilDiv total limit = ⌈(total : ℚ) / (limit : ℚ)⌉ := by
  obtain ⟨d, rfl⟩ := Int.eq_ofNat_of_zero_le hlimit.le
  unfold ceilDiv
  rw [Int.fdiv_eq_ediv _ hlimit.le, ← Rat.floor_intCast_div_natCast, ← Int.ceil_neg]
  congr 1
  push_cast
  ring

/-- The sorted list of the owner is in newest-first order. -/
theorem insertionSort_newestFirst (l : List Generation) :
    (l.insertionSort newestFirst).Pairwise (fun a b => b.createdAt ≤ a.createdAt) := by
  haveI : IsTotal Generation newestFirst := ⟨fun a b => Nat.le_total b.createdAt a.createdAt⟩
  haveI : IsTrans Generation newestFirst := ⟨fun _ _ _ hab hbc => Nat.le_trans hbc hab⟩
  exact List.sorted_insertionSort newestFirst l

/-- The skip of a query with a positive page and limit whose product stays below
`2 ^ 53` is the exact product `(page - 1) * limit`. -/
theorem historySkip_safe (query : HistoryQuery) (page limit : Int)
    (hp : historyPage query = .finite page) (hl : historyLimit query = .finite limit)
    (hpage : 0 < page) (hlimit : 0 < limit) (hskip : (page - 1) * limit < 2 ^ 53) :
    historySkip query = .finite ((page - 1) * limit) := by
  have h0 : 0 ≤ page - 1 := by omega
  have hle : page - 1 ≤ (page - 1) * limit := by nlinarith
  have hprod : 0 ≤ (page - 1) * limit := Int.mul_nonneg h0 hlimit.le
  unfold historySkip
  rw [hp, hl]
  simp only [JsNumber.sub, JsNumber.mul]
  rw [toDouble_safe (page - 1) (by omega)]
  simp only
  rw [toDouble_safe ((page - 1) * limit) (by omega)]

/-- C9 as amended: for every user, every record store and every query whose page and
limit are positive safe integers (limit and `(page - 1) * limit` below `2 ^ 53`),
`getHistory` (when its two store calls resolve) answers 200 with the slice of the
records of that user, sorted newest first, that starts at offset `(page - 1) * limit`
and has at most `limit` elements. The list contains only records the user owns that
are in the store, is in non-increasing `createdAt` order, `pagination.total` is the
number of records the user owns, and `pagination.pages` is `ceil(total / limit)`. The
store is left unchanged. -/
theorem getHistory_page (db : Db) (env : HistoryEnv) (user : User) (query : HistoryQuery)
    (page limit : Int)
    (hp : historyPage query = .finite page) (hl : historyLimit query = .finite limit)
    (hpage : 0 < page) (hlimit : 0 < limit) (hsafe : limit < 2 ^ 53)
    (hskip : (page - 1) * limit < 2 ^ 53)
    (hfind : env.findError = none) (hcount : env.countError = none) :
    ∃ generations : List Generation,
      getHistory db env user query =
        ({ status := 200, success := true, message := none,
           payload := .history generations (.finite page) (.finite limit)
             (db.generations.countP (fun g => g.user = user._id))
             (.finite ⌈((db.generations.countP (fun g => g.user = user._id) : Nat) : ℚ) /
               ((limit : Int) : ℚ)⌉) }, db) ∧
      generations =
        (((db.generations.filter (fun g => g.user = user._id)).insertionSort newestFirst).drop
          ((page - 1) * limit).toNat).take limit.toNat ∧
      ((db.generations.filter (fun g => g.user = user._id)).insertionSort newestFirst).Perm
        (db.generations.filter (fun g => g.user = user._id)) ∧
      ((db.generations.filter (fun g => g.user = user._id)).insertionSort newestFirst).Pairwise
        (fun a b => b.createdAt ≤ a.createdAt) ∧
      (∀ g ∈ generations, g.user = user._id ∧ g ∈ db.generations) ∧
      (generations.length : Int) ≤ limit ∧
      generations.Pairwise (fun a b => b.createdAt ≤ a.createdAt) := by
  have hprod : 0 ≤ (page - 1) * limit := Int.mul_nonneg (by omega) hlimit.le
  have hnot : ¬ (page - 1) * limit < 0 := by omega
  have hbound : limit.toNat < 2 ^ 53 ∧ ((page - 1) * limit).natAbs < 2 ^ 53 := by
    constructor <;> omega
  have habs : limit.natAbs = limit.toNat := by omega
  have hne : limit ≠ 0 := by omega
  have hsorted := insertionSort_newestFirst (db.generations.filter (fun g => g.user = user._id))
  refine ⟨_, ?_, rfl, List.perm_insertionSort _ _, hsorted, ?_, ?_, ?_⟩
  · simp only [getHistory, Generation.findPage, Generation.countDocuments, Generation.ownedBy,
      historySkip_safe query page limit hp hl hpage hlimit hskip, hp, hl, hfind, hcount,
      if_pos hbound, if_neg hnot, habs, mathCeilDiv, if_neg hne]
    rw [ceilDiv_eq_ceil _ _ hlimit, List.countP_eq_length_filter]
  · intro g hg
    have h1 := List.mem_of_mem_drop (List.mem_of_mem_take hg)
    rw [List.mem_insertionSort, List.mem_filter] at h1
    exact ⟨by simpa using h1.2, h1.1⟩
  · have := List.length_take_le limit.toNat
      (((db.generations.filter (fun g => g.user = user._id)).insertionSort newestFirst).drop
        ((page - 1) * limit).toNat)
    omega
  · exact (hsorted.sublist (List.drop_sublist _ _)).sublist (List.take_sublist _ _)

set_option maxRecDepth 8000 in
/-- Witness of the amended C9: page 2 with limit 1 of the history of user `b`, who owns
two of the three stored records, is the older of the two; there are 2 pages. -/
theorem getHistory_page_witness :
    ∃ generations : List Generation,
      (getHistory historyDb historyOk (protect historyDb userB)
        { page := some "2", limit := some "1" }).1.payload =
        .history generations (.finite 2) (.finite 1) 2 (.finite 2) ∧
      generations = [sampleRecord] := by
  obtain ⟨generations, h, hgen, -⟩ := getHistory_page historyDb historyOk
    (protect historyDb userB) { page := some "2", limit := some "1" } 2 1 (by decide)
    (by decide) (by decide) (by decide) (by decide) (by decide) rfl rfl
  refine ⟨generations, ?_, ?_⟩
  · rw [h]
    have hc :
        historyDb.generations.countP (fun g => g.user = (protect historyDb userB)._id) = 2 := by
      decide
    simp only [hc]
    norm_num
  · rw [hgen]
    decide

set_option maxRecDepth 8000 in
/-- Counterexample to C9: the query `limit=-5` is accepted by `getHistory`, which uses
the limit -5 and answers 200 with both records of user `b`: the list has 2 elements,
more than the limit, and `pages` is 0. -/
theorem getHistory_negative_limit_counterexample :
    historyLimit { page := none, limit := some "-5" } = .finite (-5) ∧
    (getHistory historyDb historyOk (protect historyDb userB)
      { page := none, limit := some "-5" }).1 =
      { status := 200, success := true, message := none,
        payload := .history
          [{ sampleRecord with _id := "65f000000000000000000009", createdAt := 9 }, sampleRecord]
          (.finite 1) (.finite (-5)) 2 (.finite 0) } ∧
    ¬ ((2 : Int) ≤ -5) := by
  refine ⟨by decide, by decide, by decide⟩

/-! ## Theorems: sequences of requests -/

/-- What one run of `handleGeneration` does to the stored state, for any in-memory
user document: nothing; or it writes the debited balance and appends one record of
that user with the debited cost; or it writes the debited balance and appends nothing. -/
theorem handleGeneration_cases (db : Db) (env : GenerationEnv) (user : User)
    (body : GenerateBody) (contentType : String) :
    (handleGeneration db env user body contentType).2 = db ∨
    (∃ generation : Generation,
      generation.user = user._id ∧ (generation.tokensUsed : Int) ≤ user.tokensRemaining ∧
      (handleGeneration db env user body contentType).2 =
        { db with
          tokensRemaining := (Function.update db.tokensRemaining user._id
            (user.tokensRemaining - generation.tokensUsed))
          generations := db.generations ++ [generation] }) ∨
    (∃ tokensUsed : Nat,
      (tokensUsed : Int) ≤ user.tokensRemaining ∧
      (handleGeneration db env user body contentType).2 =
        { db with
          tokensRemaining := (Function.update db.tokensRemaining user._id
            (user.tokensRemaining - tokensUsed)) }) := by
  rcases hp : body.prompt with _ | prompt
  · left
    rw [handleGeneration_missing_prompt db env _ body contentType (Or.inl hp)]
  by_cases hne : prompt = ""
  · left
    subst hne
    rw [handleGeneration_missing_prompt db env _ body contentType (Or.inr hp)]
  rcases hgen : generateContent contentType prompt (body.model.getD "gemini-2.5-flash")
    env.backend with error | generated
  · left
    rw [handleGeneration_generator_error db env _ body contentType prompt error hp hne hgen]
  by_cases hlow : user.tokensRemaining < generated.tokensUsed
  · left
    rw [handleGeneration_rejected db env user body contentType prompt generated hp hne hgen hlow]
  have hok : (generated.tokensUsed : Int) ≤ user.tokensRemaining := not_lt.mp hlow
  have h := handleGeneration_debit db env user body contentType prompt generated hp hne hgen hok
  rcases hsave : env.saveError with _ | message
  swap
  · left
    rw [h, hsave, User.save_error]
  rw [hsave, User.save_ok] at h
  dsimp only at h
  rcases hcreate : Generation.create
      { db with
        tokensRemaining := (Function.update db.tokensRemaining user._id
          (user.tokensRemaining - generated.tokensUsed)) }
      env.createError env.newId env.now
      { user := user._id, contentType := contentType, prompt := prompt,
        output := generated.content, tokensUsed := generated.tokensUsed,
        model := some (body.model.getD "gemini-2.5-flash") } with error | ⟨generation, stored⟩
  · right; right
    rw [hcreate] at h
    exact ⟨generated.tokensUsed, hok, by rw [h]⟩
  · right; left
    rw [hcreate] at h
    obtain ⟨hg, hs, -, -⟩ := Generation.create_ok _ _ _ _ _ _ _ hcreate
    refine ⟨generation, by rw [hg], by rw [hg]; exact hok, ?_⟩
    rw [h, hs, hg]

/-- What one run of `deleteGeneration` does to the stored state: nothing, or the
removal of one stored record that the caller owns. -/
theorem deleteGeneration_cases (db : Db) (findError deleteError : Option String) (user : User)
    (id : String) :
    (deleteGeneration db findError deleteError user id).2 = db ∨
    (∃ generation : Generation,
      generation ∈ db.generations ∧ generation.user = user._id ∧
      (deleteGeneration db findError deleteError user id).2 =
        { db with generations := db.generations.erase generation }) := by
  rcases hcast : castObjectId id with _ | oid
  · left
    simp [deleteGeneration, Generation.findById, hcast]
  cases findError with
  | some message =>
    left
    simp [deleteGeneration, Generation.findById, hcast]
  | none =>
    rcases hfind : db.generations.find? (fun g => g._id = oid) with _ | generation
    · left
      simp [deleteGeneration, Generation.findById, hcast, hfind]
    · by_cases howner : generation.user = user._id
      · cases deleteError with
        | some message =>
          left
          simp [deleteGeneration, Generation.findById, Generation.deleteOne, hcast, hfind,
            howner]
        | none =>
          right
          refine ⟨generation, List.mem_of_find?_eq_some hfind, howner, ?_⟩
          simp [deleteGeneration, Generation.findById, Generation.deleteOne, hcast, hfind,
            howner]
      · left
        simp [deleteGeneration, Generation.findById, hcast, hfind, howner]

/-- What one request does to the stored state: nothing; or a debit of the caller
together with one new record of the caller with the debited cost; or a debit of the
caller without a record; or the removal of one record of the caller without any change
of a balance. -/
theorem step_cases (db : Db) (call : Call) :
    (step db call).2 = db ∨
    (∃ generation : Generation,
      generation.user = call.caller ∧
      (generation.tokensUsed : Int) ≤ db.tokensRemaining call.caller ∧
      (step db call).2 =
        { db with
          tokensRemaining := (Function.update db.tokensRemaining call.caller
            (db.tokensRemaining call.caller - generation.tokensUsed))
          generations := db.generations ++ [generation] }) ∨
    (∃ tokensUsed : Nat,
      (tokensUsed : Int) ≤ db.tokensRemaining call.caller ∧
      (step db call).2 =
        { db with
          tokensRemaining := (Function.update db.tokensRemaining call.caller
            (db.tokensRemaining call.caller - tokensUsed)) }) ∨
    (∃ generation : Generation,
      generation ∈ db.generations ∧ generation.user = call.caller ∧
      (step db call).2 = { db with generations := db.generations.erase generation }) := by
  cases call with
  | generate caller route body env =>
    rcases handleGeneration_cases db env (protect db caller) body route.contentType with
      h | ⟨g, h1, h2, h3⟩ | ⟨t, h1, h2⟩
    · exact Or.inl h
    · exact Or.inr (Or.inl ⟨g, h1, h2, h3⟩)
    · exact Or.inr (Or.inr (Or.inl ⟨t, h1, h2⟩))
  | getHistory caller query env =>
    left
    simp only [step, getHistory]
    split
    · rfl
    · split <;> rfl
  | getGeneration caller id findError =>
    left
    simp only [step, getGeneration]
    split
    · rfl
    · rfl
    · split <;> rfl
  | deleteGeneration caller id findError deleteError =>
    rcases deleteGeneration_cases db findError deleteError (protect db caller) id with
      h | ⟨g, h1, h2, h3⟩
    · exact Or.inl h
    · exact Or.inr (Or.inr (Or.inr ⟨g, h1, h2, h3⟩))
  | getStats caller storeError =>
    left
    simp only [step, getStats]
    split <;> rfl

/-- Appending a record adds its cost to the spending of its owner only. -/
theorem spent_append (db : Db) (balances : ObjectId → Int) (generation : Generation)
    (owner : ObjectId) :
    spent { db with tokensRemaining := balances,
                    generations := db.generations ++ [generation] } owner =
      spent db owner + if generation.user = owner then generation.tokensUsed else 0 := by
  unfold spent Generation.ownedBy
  by_cases h : generation.user = owner <;> simp [List.filter_append, List.filter_cons, h]

/-- Removing a stored record takes its cost off the spending of its owner only. -/
theorem spent_erase (db : Db) (generation : Generation) (owner : ObjectId)
    (hmem : generation ∈ db.generations) :
    spent { db with generations := db.generations.erase generation } owner +
        (if generation.user = owner then generation.tokensUsed else 0) =
      spent db owner := by
  unfold spent Generation.ownedBy
  have hperm := ((List.perm_cons_erase hmem).filter (fun g => decide (g.user = owner))).map
    (fun g => g.tokensUsed)
  rw [hperm.sum_eq]
  by_cases h : generation.user = owner <;> simp [List.filter_cons, h]
  omega

/-- One request never raises the sum of the spending and the balance of a user, and
keeps it equal unless it removes a record or debits without storing a record. -/
theorem step_total (db : Db) (call : Call) (owner : ObjectId) :
    (spent (step db call).2 owner : Int) + (step db call).2.tokensRemaining owner ≤
      (spent db owner : Int) + db.tokensRemaining owner ∧
    (¬ removesRecord db call → ¬ debitsWithoutRecord db call →
      (spent (step db call).2 owner : Int) + (step db call).2.tokensRemaining owner =
        (spent db owner : Int) + db.tokensRemaining owner) := by
  rcases step_cases db call with h | ⟨g, hu, hle, h⟩ | ⟨t, hle, h⟩ | ⟨g, hmem, hu, h⟩
  · rw [h]
    exact ⟨le_refl _, fun _ _ => rfl⟩
  · have hs : (step db call).2.tokensRemaining owner + (if g.user = owner then (g.tokensUsed : Int) else 0) =
        db.tokensRemaining owner := by
      rw [h, hu]
      by_cases hc : call.caller = owner
      · subst hc
        simp
      · simp [Function.update, hc, Ne.symm hc]
    have hsp : (spent (step db call).2 owner : Int) =
        spent db owner + (if g.user = owner then (g.tokensUsed : Int) else 0) := by
      rw [h, spent_append]
      by_cases hc : g.user = owner <;> simp [hc]
    constructor
    · omega
    · intro _ _
      omega
  · have hsp : spent (step db call).2 owner = spent db owner := by
      rw [h]
      rfl
    by_cases hc : call.caller = owner
    · have hb : (step db call).2.tokensRemaining owner = db.tokensRemaining owner - t := by
        rw [h, ← hc]
        simp
      constructor
      · rw [hsp, hb]
        omega
      · intro _ hdebit
        rw [hsp, hb]
        by_cases ht : t = 0
        · subst ht
          simp
        · exfalso
          apply hdebit
          refine ⟨?_, by rw [h]⟩
          rw [hc, hb]
          omega
    · have hb : (step db call).2.tokensRemaining owner = db.tokensRemaining owner := by
        rw [h]
        simp [Function.update, Ne.symm hc]
      rw [hsp, hb]
      exact ⟨le_refl _, fun _ _ => rfl⟩
  · have hb : (step db call).2.tokensRemaining owner = db.tokensRemaining owner := by
      rw [h]
    have hsp := spent_erase db g owner hmem
    rw [← h] at hsp
    constructor
    · rw [hb, ← hsp]
      push_cast
      split <;> omega
    · intro hremoves _
      exfalso
      apply hremoves
      unfold removesRecord
      rw [h]
      simp only
      rw [List.length_erase_of_mem hmem]
      have : 0 < db.generations.length := List.length_pos_of_mem hmem
      omega

/-- One request keeps every balance non-negative. -/
theorem step_nonneg (db : Db) (call : Call) (owner : ObjectId)
    (h0 : 0 ≤ db.tokensRemaining owner) : 0 ≤ (step db call).2.tokensRemaining owner := by
  rcases step_cases db call with h | ⟨g, _, hle, h⟩ | ⟨t, hle, h⟩ | ⟨g, _, _, h⟩
  · rw [h]; exact h0
  · rw [h]
    by_cases hc : owner = call.caller
    · subst hc
      simp
      omega
    · simp [Function.update, hc]
      exact h0
  · rw [h]
    by_cases hc : owner = call.caller
    · subst hc
      simp
      omega
    · simp [Function.update, hc]
      exact h0
  · rw [h]; exact h0

/-- Running a sequence in two parts. -/
theorem run_append (db : Db) (first second : List Call) :
    run db (first ++ second) = run (run db first) second := by
  induction first generalizing db with
  | nil => rfl
  | cons call calls ih => exact ih (step db call).2

/-- A record that a request adds to the store is the one new record of that request,
it belongs to the caller, and the request debited its cost from the caller. -/
theorem step_new_record (db : Db) (call : Call) (generation : Generation)
    (hnew : generation ∈ (step db call).2.generations) (hold : generation ∉ db.generations) :
    (step db call).2.generations = db.generations ++ [generation] ∧
    generation.user = call.caller ∧
    (generation.tokensUsed : Int) ≤ db.tokensRemaining call.caller ∧
    (step db call).2.tokensRemaining call.caller =
      db.tokensRemaining call.caller - generation.tokensUsed := by
  rcases step_cases db call with h | ⟨g, hu, hle, h⟩ | ⟨t, _, h⟩ | ⟨g, _, _, h⟩
  · rw [h] at hnew
    exact absurd hnew hold
  · rw [h] at hnew
    simp only [List.mem_append, List.mem_singleton] at hnew
    rcases hnew with hnew | hnew
    · exact absurd hnew hold
    · subst hnew
      rw [h]
      simp [hu, hle]
  · rw [h] at hnew
    exact absurd hnew hold
  · rw [h] at hnew
    exact absurd (List.mem_of_mem_erase hnew) hold

/-- A sequence of requests never raises the sum of the spending and the balance of a
user, and keeps it equal when it is lossless. -/
theorem run_total (db : Db) (calls : List Call) (owner : ObjectId) :
    (spent (run db calls) owner : Int) + (run db calls).tokensRemaining owner ≤
      (spent db owner : Int) + db.tokensRemaining owner ∧
    (Lossless db calls →
      (spent (run db calls) owner : Int) + (run db calls).tokensRemaining owner =
        (spent db owner : Int) + db.tokensRemaining owner) := by
  induction calls generalizing db with
  | nil => exact ⟨le_refl _, fun _ => rfl⟩
  | cons call calls ih =>
    obtain ⟨hle, heq⟩ := step_total db call owner
    obtain ⟨ihle, iheq⟩ := ih (step db call).2
    constructor
    · exact le_trans ihle hle
    · intro hl
      obtain ⟨h1, h2, h3⟩ := hl
      exact (iheq h3).trans (heq h1 h2)

/-- Every record in the store after a sequence of requests was there at the start or
was added by one request of the sequence, which debited its cost from its owner. -/
theorem run_record_origin (db : Db) (calls : List Call) (generation : Generation)
    (hmem : generation ∈ (run db calls).generations) :
    generation ∈ db.generations ∨
    ∃ (first : List Call) (call : Call) (rest : List Call),
      calls = first ++ call :: rest ∧ call.caller = generation.user ∧
      (step (run db first) call).2.generations = (run db first).generations ++ [generation] ∧
      (generation.tokensUsed : Int) ≤ (run db first).tokensRemaining generation.user ∧
      (step (run db first) call).2.tokensRemaining generation.user =
        (run db first).tokensRemaining generation.user - generation.tokensUsed := by
  induction calls generalizing db with
  | nil => exact Or.inl hmem
  | cons call calls ih =>
    rcases ih (step db call).2 hmem with h | ⟨first, c, rest, hcalls, hcaller, h1, h2, h3⟩
    · by_cases hold : generation ∈ db.generations
      · exact Or.inl hold
      · right
        obtain ⟨g1, g2, g3, g4⟩ := step_new_record db call generation h hold
        refine ⟨[], call, calls, rfl, g2.symm, g1, ?_, ?_⟩
        · rw [g2]; exact g3
        · rw [g2]; exact g4
    · right
      exact ⟨call :: first, c, rest, by rw [hcalls]; rfl, hcaller, h1, h2, h3⟩

/-- C5: from a non-negative stored balance of a user, the balance stored after
`handleGeneration` is non-negative, whatever the request, its in-memory user document,
content type, prompt, model and the outcomes of the generator and the store; hence
after every sequence of generate, getHistory, getGeneration, deleteGeneration and
getStats requests handled one after another the balance is non-negative. -/
theorem balance_nonneg (db : Db) (owner : ObjectId) (h0 : 0 ≤ db.tokensRemaining owner) :
    (∀ (env : GenerationEnv) (user : User) (body : GenerateBody) (contentType : String),
      0 ≤ (handleGeneration db env user body contentType).2.tokensRemaining owner) ∧
    (∀ calls : List Call, 0 ≤ (run db calls).tokensRemaining owner) := by
  constructor
  · intro env user body contentType
    rcases handleGeneration_cases db env user body contentType with
      h | ⟨g, _, hle, h⟩ | ⟨t, hle, h⟩
    · rw [h]; exact h0
    · rw [h]
      by_cases hc : owner = user._id
      · subst hc
        simp
        omega
      · simp [Function.update, hc]
        exact h0
    · rw [h]
      by_cases hc : owner = user._id
      · subst hc
        simp
        omega
      · simp [Function.update, hc]
        exact h0
  · intro calls
    induction calls generalizing db with
    | nil => exact h0
    | cons call calls ih => exact ih (step db call).2 (step_nonneg db call owner h0)

/-- Witness of C5: user `u` starts with 50 tokens; after two sample requests (the
second one is rejected) the balance is still non-negative. -/
theorem balance_nonneg_witness :
    0 ≤ sampleDb.tokensRemaining "u" ∧
    0 ≤ (run sampleDb [successCall, successCall]).tokensRemaining "u" :=
  ⟨by decide, (balance_nonneg sampleDb "u" (by decide)).2 [successCall, successCall]⟩

/-- C6 as amended: starting from a user with balance `B0` and no generation records,
after every finite sequence of requests handled one after another, the sum of
`tokensUsed` over the existing records of that user plus the current balance of the
user is at most `B0`, with equality as long as no request has removed a record and no
request has debited its caller without storing a record (which happens when
`Generation.create` fails after the balance was saved). Every existing record of the
user was added by one request of that user in the sequence, and that request debited
the `tokensUsed` of the record from the balance. -/
theorem monotonic_spend (db : Db) (calls : List Call) (owner : ObjectId)
    (hstart : Generation.ownedBy db owner = []) :
    (spent (run db calls) owner : Int) + (run db calls).tokensRemaining owner ≤
      db.tokensRemaining owner ∧
    (Lossless db calls →
      (spent (run db calls) owner : Int) + (run db calls).tokensRemaining owner =
        db.tokensRemaining owner) ∧
    (∀ generation ∈ (run db calls).generations, generation.user = owner →
      ∃ (first : List Call) (call : Call) (rest : List Call),
        calls = first ++ call :: rest ∧ call.caller = owner ∧
        (step (run db first) call).2.generations =
          (run db first).generations ++ [generation] ∧
        (generation.tokensUsed : Int) ≤ (run db first).tokensRemaining owner ∧
        (step (run db first) call).2.tokensRemaining owner =
          (run db first).tokensRemaining owner - generation.tokensUsed) := by
  have hspent : (spent db owner : Int) = 0 := by
    unfold spent
    rw [hstart]
    rfl
  obtain ⟨hle, heq⟩ := run_total db calls owner
  rw [hspent, zero_add] at hle heq
  refine ⟨hle, heq, ?_⟩
  intro generation hmem howner
  rcases run_record_origin db calls generation hmem with h | h
  · exfalso
    have : generation ∈ Generation.ownedBy db owner := by
      unfold Generation.ownedBy
      rw [List.mem_filter]
      exact ⟨h, by simpa using howner⟩
    rw [hstart] at this
    exact absurd this (List.not_mem_nil _)
  · subst howner
    exact h

set_option maxRecDepth 8000 in
/-- Witness of the amended C6: user `u` starts with 50 tokens and no records; after the
sample request, which succeeds, spending plus balance is at most 50. -/
theorem monotonic_spend_witness :
    Generation.ownedBy sampleDb "u" = [] ∧
    (spent (run sampleDb [successCall]) "u" : Int) +
      (run sampleDb [successCall]).tokensRemaining "u" ≤ sampleDb.tokensRemaining "u" :=
  ⟨rfl, (monotonic_spend sampleDb [successCall] "u" rfl).1⟩

set_option maxRecDepth 8000 in
/-- Counterexample to C6: user `u` starts with 50 tokens and no records and sends one
generation request, for which the backend answers with the empty text. No record is
ever deleted, the request removes none, and yet afterwards the user owns no record and
holds 9 tokens: spending plus balance is 9, not 50. -/
theorem monotonic_spend_counterexample :
    Generation.ownedBy sampleDb "u" = [] ∧
    sampleDb.tokensRemaining "u" = 50 ∧
    ¬ removesRecord sampleDb emptyOutputCall ∧
    (run sampleDb [emptyOutputCall]).generations = [] ∧
    (spent (run sampleDb [emptyOutputCall]) "u" : Int) +
      (run sampleDb [emptyOutputCall]).tokensRemaining "u" = 9 := by
  refine ⟨rfl, rfl, ?_, rfl, rfl⟩
  unfold removesRecord
  exact Nat.lt_irrefl 0

/-! ## Theorems: several generation requests of one user -/

/-- One generation request of cost `amount`, handled from start to end: either the
stored balance of the caller is unchanged and the answer is not 201, or the balance
covered the cost and the stored balance has gone down by exactly `amount`. This holds
for every outcome of the save and of the record creation. -/
theorem step_costs (db : Db) (call : Call) (caller : ObjectId) (amount : Nat)
    (hcall : costs caller amount call) :
    ((step db call).2.tokensRemaining caller = db.tokensRemaining caller ∧
      (step db call).1.status ≠ 201) ∨
    ((amount : Int) ≤ db.tokensRemaining caller ∧
      (step db call).2.tokensRemaining caller = db.tokensRemaining caller - amount) := by
  cases call with
  | generate c route body env =>
    obtain ⟨hc, prompt, content, hp, hne, hgen⟩ := hcall
    subst hc
    simp only [step, generate]
    by_cases hlow : (protect db c).tokensRemaining <
        (({ content := content, tokensUsed := amount } : Generated).tokensUsed : Int)
    · left
      rw [handleGeneration_rejected db env (protect db c) body route.contentType prompt _ hp hne
        hgen hlow]
      exact ⟨rfl, by simp⟩
    · have hok := not_lt.mp hlow
      have h := handleGeneration_debit db env (protect db c) body route.contentType prompt _ hp
        hne hgen hok
      rcases hsave : env.saveError with _ | message
      swap
      · left
        rw [h, hsave, User.save_error]
        exact ⟨rfl, by simp [failed]⟩
      rw [hsave, User.save_ok] at h
      simp only [protect] at h hok
      right
      refine ⟨hok, ?_⟩
      rcases hcreate : Generation.create
          { db with
            tokensRemaining := (Function.update db.tokensRemaining c
              (db.tokensRemaining c - amount)) }
          env.createError env.newId env.now
          { user := c, contentType := route.contentType, prompt := prompt,
            output := content, tokensUsed := amount,
            model := some (body.model.getD "gemini-2.5-flash") } with
        error | ⟨generation, stored⟩
      · simp only [protect]
        rw [hcreate] at h
        rw [h]
        simp
      · simp only [protect]
        rw [hcreate] at h
        obtain ⟨-, hs, -, -⟩ := Generation.create_ok _ _ _ _ _ _ _ hcreate
        rw [h, hs]
        simp
  | getHistory caller query env => exact absurd hcall (by simp [costs])
  | getGeneration caller id findError => exact absurd hcall (by simp [costs])
  | deleteGeneration caller id findError deleteError => exact absurd hcall (by simp [costs])
  | getStats caller storeError => exact absurd hcall (by simp [costs])

/-- Requests of cost `amount` handled one after another: the stored balance ends at the
starting balance minus `amount` per saved debit, stays non-negative, and every request
answered with 201 is among the saved debits. -/
theorem run_costs (db : Db) (caller : ObjectId) (amount : Nat) (calls : List Call)
    (hbalance : 0 ≤ db.tokensRemaining caller) (hamount : 0 < amount)
    (hcalls : ∀ call ∈ calls, costs caller amount call) :
    (run db calls).tokensRemaining caller + (debitCount db caller calls : Nat) * (amount : Int) =
      db.tokensRemaining caller ∧
    0 ≤ (run db calls).tokensRemaining caller ∧
    createdCount db calls ≤ debitCount db caller calls := by
  induction calls generalizing db with
  | nil => exact ⟨by simp [run, debitCount], hbalance, le_refl _⟩
  | cons call calls ih =>
    have hcall := hcalls call (List.mem_cons_self _ _)
    have hrest : ∀ c ∈ calls, costs caller amount c :=
      fun c hc => hcalls c (List.mem_cons_of_mem _ hc)
    have hpos : (0 : Int) < amount := by exact_mod_cast hamount
    rcases step_costs db call caller amount hcall with ⟨hsame, hstatus⟩ | ⟨hle, hdebit⟩
    · obtain ⟨h1, h2, h3⟩ := ih (step db call).2 (by rw [hsame]; exact hbalance) hrest
      refine ⟨?_, h2, ?_⟩
      · simp only [run, debitCount, hsame, if_true, Nat.zero_add]
        rw [h1, hsame]
      · simp only [createdCount, debitCount, hsame, if_true, if_neg hstatus, Nat.zero_add]
        exact h3
    · have hnonneg : 0 ≤ (step db call).2.tokensRemaining caller := by
        rw [hdebit]
        omega
      have hchanged :
          ¬ (step db call).2.tokensRemaining caller = db.tokensRemaining caller := by
        rw [hdebit]
        omega
      obtain ⟨h1, h2, h3⟩ := ih (step db call).2 hnonneg hrest
      refine ⟨?_, h2, ?_⟩
      · simp only [run, debitCount, if_neg hchanged]
        push_cast
        rw [hdebit] at h1
        linarith
      · simp only [createdCount, debitCount, if_neg hchanged]
        split <;> omega

/-- C7 as amended: for every balance `B >= 0`, every amount > 0 and every `N`, when `N`
generation requests of cost `amount` by the same user are handled one after another
(the `req.user` of each request is loaded after the previous request has returned), at
most `floor(B / amount)` of them pass the balance check and save their debit, whatever
the outcomes of the save and of the record creation; the requests answered with 201 are
among them, the stored balance ends at `B` minus `amount` per saved debit, and it is
never negative. The code has no atomic check-and-debit, so the bound is not claimed for
requests whose steps interleave. -/
theorem sequential_debit_bound (db : Db) (caller : ObjectId) (amount : Nat) (calls : List Call)
    (hbalance : 0 ≤ db.tokensRemaining caller) (hamount : 0 < amount)
    (hcalls : ∀ call ∈ calls, costs caller amount call) :
    (debitCount db caller calls : Int) ≤ db.tokensRemaining caller / (amount : Int) ∧
    createdCount db calls ≤ debitCount db caller calls ∧
    (run db calls).tokensRemaining caller =
      db.tokensRemaining caller - (debitCount db caller calls : Nat) * (amount : Int) ∧
    0 ≤ (run db calls).tokensRemaining caller := by
  obtain ⟨hsum, hnonneg, hcreated⟩ := run_costs db caller amount calls hbalance hamount hcalls
  have hpos : (0 : Int) < amount := by exact_mod_cast hamount
  refine ⟨?_, hcreated, by linarith, hnonneg⟩
  rw [Int.le_ediv_iff_mul_le hpos]
  linarith

set_option maxRecDepth 8000 in
/-- Witness of the amended C7: user `u` holds 50 tokens and sends the sample request,
which costs 48, twice in turn; at most `50 / 48 = 1` of them saves a debit. -/
theorem sequential_debit_bound_witness :
    0 ≤ sampleDb.tokensRemaining "u" ∧
    (∀ call ∈ [successCall, successCall], costs "u" 48 call) ∧
    (debitCount sampleDb "u" [successCall, successCall] : Int) ≤
      sampleDb.tokensRemaining "u" / ((48 : Nat) : Int) :=
  have hcalls : ∀ call ∈ [successCall, successCall], costs "u" 48 call := by
    intro call hcall
    simp only [List.mem_cons, List.mem_singleton, List.not_mem_nil, or_false, or_self] at hcall
    subst hcall
    exact ⟨rfl, "Write a tagline for a coffee shop", "Fresh beans, warm hearts.", rfl,
      by decide, rfl⟩
  ⟨by decide, hcalls,
    (sequential_debit_bound sampleDb "u" 48 [successCall, successCall] (by decide) (by decide)
      hcalls).1⟩

set_option maxRecDepth 8000 in
/-- Counterexample to C7: user `u` holds 50 tokens and sends the sample request, which
costs 48, twice. Both requests are authenticated before either handler saves, so the
`req.user` of both holds the balance 50. The first handler debits and stores a record;
the second handler, run on the state the first one left, compares its own `req.user`
balance 50 with 48, passes, saves 2 again and stores a second record. Both are answered
with 201 although `floor(50 / 48) = 1`: 96 tokens are recorded against a balance of 50. -/
theorem concurrent_debit_counterexample :
    (protect sampleDb "u").tokensRemaining = 50 ∧
    generateContent "blog-post" "Write a tagline for a coffee shop" "gemini-2.5-flash"
        successEnv.backend = .ok { content := "Fresh beans, warm hearts.", tokensUsed := 48 } ∧
    (50 : Int) / 48 = 1 ∧
    (generate .blogPost sampleDb successEnv (protect sampleDb "u") sampleBody).1.status = 201 ∧
    (generate .blogPost
        (generate .blogPost sampleDb successEnv (protect sampleDb "u") sampleBody).2
        secondEnv (protect sampleDb "u") sampleBody).1.status = 201 ∧
    (generate .blogPost
        (generate .blogPost sampleDb successEnv (protect sampleDb "u") sampleBody).2
        secondEnv (protect sampleDb "u") sampleBody).2.tokensRemaining "u" = 2 ∧
    spent
      (generate .blogPost
        (generate .blogPost sampleDb successEnv (protect sampleDb "u") sampleBody).2
        secondEnv (protect sampleDb "u") sampleBody).2 "u" = 96 := by
  refine ⟨rfl, rfl, by decide, rfl, rfl, rfl, rfl⟩

end AiContentSaas
